import Mathlib

/-!
Verification of the Jarvis_BriefMe core against its natural-language
specification.

The definitions below are a shallow embedding of the Python sources:

* `src/src/generators/cycle.py` — the day-cycle state machine
  (`CycleState`, `US_STATES`, `advance`, `load_state`, the persistence
  trace of `_save_state`, and `simulate_days`);
* `src/src/main.py` — the context-gathering orchestration
  (`gather_data` and its per-source helpers);
* `src/src/file_writer.py` — `get_missing_fields`.

Python `datetime.date` values are modelled as explicit
(year, month, day) records with the lexicographic comparison that
Python's `date.__ge__`/`__lt__` implement; Python ints are `Int`
(`%` on non-negative modulus agrees between Python and `Int.emod`);
raising code is modelled with `Except`/explicit raised-flags.
-/

set_option maxHeartbeats 1000000

namespace JarvisBriefMe

/-- A calendar date, as produced by `datetime.date()`. -/
structure Date where
  year : Int
  month : Nat
  day : Nat
deriving Repr, DecidableEq

/-- Number of days in a month, as `datetime.replace` validates it. -/
def daysInMonth (y : Int) (m : Nat) : Nat :=
  if m = 2 then (if (y % 4 = 0 ∧ ¬ y % 100 = 0) ∨ y % 400 = 0 then 29 else 28)
  else if m = 4 ∨ m = 6 ∨ m = 9 ∨ m = 11 then 30
  else 31

/-- A date that `datetime` would actually construct. -/
def Date.Valid (d : Date) : Prop :=
  1 ≤ d.month ∧ d.month ≤ 12 ∧ 1 ≤ d.day ∧ d.day ≤ daysInMonth d.year d.month

instance (d : Date) : Decidable d.Valid := by
  unfold Date.Valid
  infer_instance

/-- Python `date.__lt__`: lexicographic on (year, month, day). -/
def Date.ltb (a b : Date) : Bool :=
  if a.year = b.year then
    if a.month = b.month then decide (a.day < b.day)
    else decide (a.month < b.month)
  else decide (a.year < b.year)

/-- Python `date.__le__` (so `x >= y` in the source is `Date.leb y x`). -/
def Date.leb (a b : Date) : Bool :=
  decide (a = b) || Date.ltb a b

/-- The `US_STATES` list of `cycle.py` (alphabetical, as in the source). -/
def US_STATES : List String := [
  "Alabama", "Alaska", "Arizona", "Arkansas", "California", "Colorado",
  "Connecticut", "Delaware", "Florida", "Georgia", "Hawaii", "Idaho",
  "Illinois", "Indiana", "Iowa", "Kansas", "Kentucky", "Louisiana",
  "Maine", "Maryland", "Massachusetts", "Michigan", "Minnesota",
  "Mississippi", "Missouri", "Montana", "Nebraska", "Nevada",
  "New Hampshire", "New Jersey", "New Mexico", "New York",
  "North Carolina", "North Dakota", "Ohio", "Oklahoma", "Oregon",
  "Pennsylvania", "Rhode Island", "South Carolina", "South Dakota",
  "Tennessee", "Texas", "Utah", "Vermont", "Virginia", "Washington",
  "West Virginia", "Wisconsin", "Wyoming"]

/-- The `CycleState` dataclass.  `last_updated` is stored in the source as an
ISO timestamp string; the code only ever uses its `.date()`, so it is
modelled as the calendar date. -/
structure CycleState where
  year : Int
  state_index : Int
  days_left : Int
  last_updated : Date
deriving Repr, DecidableEq

/-- The `current_state` property: `US_STATES[self.state_index % len(US_STATES)]`.
Python `%` on a positive modulus is `Int.emod`. -/
def CycleState.current_state (s : CycleState) : String :=
  US_STATES.getD (s.state_index % (US_STATES.length : Int)).toNat ""

/-- `CycleEngine.get_current`. -/
def get_current (s : CycleState) : Int × String × Int :=
  (s.year, s.current_state, s.days_left)

/-- The mutation performed by the different-day branch of `advance()`:
decrement `days_left` if it exceeds 1, otherwise reset to 3, bump the year,
and bump the state index, zeroing it when it reaches `len(US_STATES)`. -/
def advanceStep (s : CycleState) : CycleState :=
  if s.days_left > 1 then { s with days_left := s.days_left - 1 }
  else
    let idx := s.state_index + 1
    { s with days_left := 3, year := s.year + 1,
             state_index := if (US_STATES.length : Int) ≤ idx then 0 else idx }

/-- `CycleEngine.advance()` run at calendar date `now`.  Returns the
returned triple, the resulting in-memory state, and whether `_save_state`
was called.  The guard is the source's `last_date >= current_date`. -/
def advance (s : CycleState) (now : Date) : (Int × String × Int) × CycleState × Bool :=
  if Date.leb now s.last_updated then (get_current s, s, false)
  else
    let s2 := { advanceStep s with last_updated := now }
    (get_current s2, s2, true)

/-- Repeated same-parameter calls to `advance()`: the triple returned by the
(k+1)-st call, each call acting on the state the previous call left. -/
def advanceRepeat (s : CycleState) (now : Date) : Nat → (Int × String × Int)
  | 0 => (advance s now).1
  | Nat.succ k => advanceRepeat (advance s now).2.1 now k

/-- Outcome of trying to read and parse the persisted `cycles.json`:
the file may be missing, unreadable/malformed (any exception from
`open`/`json.load`/`CycleState(**data)`), or parse to a state. -/
inductive ReadResult
  | missing
  | malformed
  | parsed (s : CycleState)
deriving Repr, DecidableEq

/-- The default initial state created by `_load_state`. -/
def initialState (now : Date) : CycleState :=
  { year := 1980, state_index := 0, days_left := 3, last_updated := now }

/-- `CycleEngine._load_state` at date `now`: a parsed state is returned
as-is (no save); a missing or malformed file falls through to the default
initial state, which is saved immediately.  The `Bool` records whether
`_save_state` was called. -/
def load_state (r : ReadResult) (now : Date) : CycleState × Bool :=
  match r with
  | .parsed s => (s, false)
  | .missing => (initialState now, true)
  | .malformed => (initialState now, true)

/-- `CycleEngine.reset`: overwrite the state with the given values and save. -/
def reset (year state_index days_left : Int) (now : Date) : CycleState × Bool :=
  ({ year := year, state_index := state_index, days_left := days_left,
     last_updated := now }, true)

/-- Observable content of the persisted state file. -/
inductive FileContent
  | missing
  | empty
  | record (s : CycleState)
deriving Repr, DecidableEq

/-- A primitive filesystem mutation of the state file. -/
inductive FsOp
  | truncateTarget
  | writeTarget (s : CycleState)
deriving Repr, DecidableEq

/-- The filesystem trace of `CycleEngine._save_state(state)`:
`open(self.state_file, 'w')` truncates the target file in place, then
`json.dump(asdict(state), f)` writes the serialized record into it.
No temporary file and no rename appear in the source. -/
def save_state_ops (s : CycleState) : List FsOp :=
  [.truncateTarget, .writeTarget s]

/-- Effect of one filesystem operation on the state-file content. -/
def applyFsOp (_ : FileContent) : FsOp → FileContent
  | .truncateTarget => .empty
  | .writeTarget s => .record s

/-- Run a trace of filesystem operations on an initial file content. -/
def runFsOps (c : FileContent) (ops : List FsOp) : FileContent :=
  ops.foldl applyFsOp c

/-- Modelled from the spec: a *transactional* persist of record `s`
("write-then-atomically-replace, or write to temp and rename") — a crash
after any prefix of the trace must leave the file holding either the old
content or the complete new record, never anything else. -/
def CrashSafeSave (old : FileContent) (s : CycleState) (ops : List FsOp) : Prop :=
  ∀ k : Nat, runFsOps old (ops.take k) = old ∨ runFsOps old (ops.take k) = .record s

/-- The Python exceptions this model distinguishes. -/
inductive PyErr
  | valueError
deriving Repr, DecidableEq

/-- `datetime.replace(day=newDay)`: raises `ValueError` unless the new day
is at least 1 and fits the month. -/
def replaceDay (d : Date) (newDay : Int) : Except PyErr Date :=
  if 1 ≤ newDay ∧ newDay ≤ (daysInMonth d.year d.month : Int)
  then .ok { d with day := newDay.toNat }
  else .error .valueError

/-- The loop of `simulate_days`: each iteration recomputes "yesterday" by
`datetime.now().replace(...).replace(day=day-1)`, forces
`self.state.last_updated` to it, calls `advance()` (which also saves), and
collects the returned triple.  The pair of `CycleState`s threads the live
in-memory state and the persisted record. -/
def simLoop (live persisted : CycleState) (now : Date) :
    Nat → Except PyErr (List (Int × String × Int)) × CycleState × CycleState
  | 0 => (.ok [], live, persisted)
  | Nat.succ n =>
    match replaceDay now ((now.day : Int) - 1) with
    | .error e => (.error e, live, persisted)
    | .ok yesterday =>
      let forced := { live with last_updated := yesterday }
      let out := advance forced now
      let live1 := out.2.1
      let persisted1 := if out.2.2 then live1 else persisted
      match simLoop live1 persisted1 now n with
      | (.ok rest, lf, pf) => (.ok (out.1 :: rest), lf, pf)
      | (.error e, lf, pf) => (.error e, lf, pf)

/-- `CycleEngine.simulate_days(num_days)` at date `now`, acting on live
state `live` with persisted record `persisted`: copy the original state
field by field, run the loop, and on normal completion restore the copy
into the live state and save it.  An exception propagates, skipping the
restore. -/
def simulate_days (live persisted : CycleState) (now : Date) (numDays : Nat) :
    Except PyErr (List (Int × String × Int)) × CycleState × CycleState :=
  let original : CycleState :=
    { year := live.year, state_index := live.state_index,
      days_left := live.days_left, last_updated := live.last_updated }
  match simLoop live persisted now numDays with
  | (.ok res, _, _) => (.ok res, original, original)
  | (.error e, lf, pf) => (.error e, lf, pf)

/-- The day-by-day projection `simulate_days` is meant to return: the
triples along `n` successive one-step advances of the cycle. -/
def projectedTriples : CycleState → Nat → List (Int × String × Int)
  | _, 0 => []
  | s, Nat.succ n => get_current (advanceStep s) :: projectedTriples (advanceStep s) n

/-! Helper lemmas. -/

theorem get_current_set_last (s : CycleState) (d : Date) :
    get_current { s with last_updated := d } = get_current s := rfl

theorem date_leb_eq_false_of_ltb {a b : Date} (h : Date.ltb a b = true) :
    Date.leb b a = false := by
  rcases a with ⟨a1, a2, a3⟩
  rcases b with ⟨b1, b2, b3⟩
  simp only [Date.ltb, Date.leb, Date.mk.injEq, decide_eq_true_eq] at h ⊢
  split_ifs at h ⊢ <;> simp_all <;> omega

theorem advance_of_new_day {s : CycleState} {d : Date}
    (hd : Date.leb d s.last_updated = false) :
    advance s d = (get_current (advanceStep s),
      { advanceStep s with last_updated := d }, true) := by
  simp [advance, hd, get_current_set_last]

/-- C2: for a persisted state whose `last_updated` has today's calendar
date, `advance()` returns the current triple unchanged, performs no
mutation and no persist, and repeated same-day calls all return the same
triple without double-advancing. -/
theorem c2_advance_same_day_noop (s : CycleState) (now : Date)
    (h : s.last_updated = now) :
    advance s now = (get_current s, s, false) ∧
    ∀ k : Nat, advanceRepeat s now k = get_current s := by
  have hg : Date.leb now s.last_updated = true := by simp [h, Date.leb]
  have hnoop : advance s now = (get_current s, s, false) := by
    simp [advance, hg]
  refine ⟨hnoop, ?_⟩
  intro k
  induction k with
  | zero => simp [advanceRepeat, hnoop]
  | succ k ih => simpa [advanceRepeat, hnoop] using ih

def c2s : CycleState := ⟨1991, 7, 2, ⟨2025, 3, 10⟩⟩

/-- Witness for C2 at a concrete same-day state. -/
theorem c2_witness :
    advance c2s ⟨2025, 3, 10⟩ = (get_current c2s, c2s, false) ∧
    advanceRepeat c2s ⟨2025, 3, 10⟩ 5 = get_current c2s :=
  ⟨(c2_advance_same_day_noop c2s ⟨2025, 3, 10⟩ rfl).1,
   (c2_advance_same_day_noop c2s ⟨2025, 3, 10⟩ rfl).2 5⟩

/-- C9: when the persisted `last_updated` date lies strictly in the future
of the current date (clock rollback), `advance()` behaves exactly like the
same-day case — triple unchanged, no mutation, no persist — because the
guard is `last_date >= current_date`. -/
theorem c9_clock_rollback_noop (s : CycleState) (now : Date)
    (h : Date.ltb now s.last_updated = true) :
    advance s now = (get_current s, s, false) := by
  have hg : Date.leb now s.last_updated = true := by
    simp [Date.leb, h]
  simp [advance, hg]

def c9s : CycleState := ⟨1985, 10, 1, ⟨2025, 3, 11⟩⟩

/-- Witness for C9 with the clock rolled back one day. -/
theorem c9_witness :
    advance c9s ⟨2025, 3, 10⟩ = (get_current c9s, c9s, false) :=
  c9_clock_rollback_noop c9s ⟨2025, 3, 10⟩ (by decide)

/-- C3: whenever `last_updated` is strictly earlier than today — by one day
or by many — a single `advance()` performs exactly one cycle-step
(decrement `days_left` if above 1, otherwise reset to 3 with year+1 and
state_index+1-with-wraparound), persists, and the size of the step does not
depend on how many days elapsed. -/
theorem c3_single_step_any_gap (s : CycleState) (now : Date)
    (h : Date.ltb s.last_updated now = true) :
    (advance s now).2.2 = true ∧
    ((advance s now).2.1).last_updated = now ∧
    (1 < s.days_left →
      ((advance s now).2.1).days_left = s.days_left - 1 ∧
      ((advance s now).2.1).year = s.year ∧
      ((advance s now).2.1).state_index = s.state_index) ∧
    (s.days_left ≤ 1 →
      ((advance s now).2.1).days_left = 3 ∧
      ((advance s now).2.1).year = s.year + 1 ∧
      ((advance s now).2.1).state_index =
        (if (50 : Int) ≤ s.state_index + 1 then 0 else s.state_index + 1)) ∧
    (∀ now2 : Date, Date.ltb s.last_updated now2 = true →
      (advance s now2).1 = (advance s now).1 ∧
      (advance s now2).2.1 = { (advance s now).2.1 with last_updated := now2 }) := by
  have hg : Date.leb now s.last_updated = false := date_leb_eq_false_of_ltb h
  have hlen : (US_STATES.length : Int) = 50 := by decide
  rw [advance_of_new_day hg]
  refine ⟨rfl, rfl, ?_, ?_, ?_⟩
  · intro hd
    simp [advanceStep, hd]
  · intro hd
    have hd' : ¬ (1 < s.days_left) := by omega
    simp [advanceStep, hd', hlen]
  · intro now2 h2
    have hg2 : Date.leb now2 s.last_updated = false := date_leb_eq_false_of_ltb h2
    rw [advance_of_new_day hg2]
    exact ⟨rfl, rfl⟩

def c3s : CycleState := ⟨1980, 0, 1, ⟨2025, 3, 9⟩⟩

/-- Witness for C3: a 3-day gap still advances by exactly one step, and a
23-day gap returns the same triple. -/
theorem c3_witness :
    ((advance c3s ⟨2025, 3, 12⟩).2.1).days_left = 3 ∧
    ((advance c3s ⟨2025, 3, 12⟩).2.1).year = 1981 ∧
    (advance c3s ⟨2025, 4, 1⟩).1 = (advance c3s ⟨2025, 3, 12⟩).1 :=
  ⟨((c3_single_step_any_gap c3s ⟨2025, 3, 12⟩ (by decide)).2.2.2.1 (by decide)).1,
   ((c3_single_step_any_gap c3s ⟨2025, 3, 12⟩ (by decide)).2.2.2.1 (by decide)).2.1,
   ((c3_single_step_any_gap c3s ⟨2025, 3, 12⟩ (by decide)).2.2.2.2 ⟨2025, 4, 1⟩ (by decide)).1⟩

/-- C4 counterexample: the state table has 50 entries, not 51. -/
theorem c4_counterexample : ¬ US_STATES.length = 51 := by decide

/-- C4 (amended): the fixed alphabetical sequence contains 50 entries, the
derived state name is always an element of it, and a rollover `advance()`
wraps an in-range `state_index` modulo 50. -/
theorem c4_fifty_states :
    US_STATES.length = 50 ∧
    (∀ s : CycleState, s.current_state ∈ US_STATES) ∧
    (∀ (s : CycleState) (now : Date), Date.ltb s.last_updated now = true →
      s.days_left ≤ 1 → 0 ≤ s.state_index → s.state_index < 50 →
      ((advance s now).2.1).state_index = (s.state_index + 1) % 50) := by
  have hlen : US_STATES.length = 50 := by decide
  have hlenI : (US_STATES.length : Int) = 50 := by decide
  refine ⟨hlen, ?_, ?_⟩
  · intro s
    unfold CycleState.current_state
    have h0 : 0 ≤ s.state_index % (US_STATES.length : Int) :=
      Int.emod_nonneg _ (by decide)
    have h1 : s.state_index % (US_STATES.length : Int) < (US_STATES.length : Int) :=
      Int.emod_lt_of_pos _ (by rw [hlenI]; decide)
    have h2 : (s.state_index % (US_STATES.length : Int)).toNat < US_STATES.length := by
      omega
    rw [List.getD_eq_getElem?_getD, List.getElem?_eq_getElem h2]
    simp
  · intro s now h hd h0 h50
    have hg : Date.leb now s.last_updated = false := date_leb_eq_false_of_ltb h
    have hd' : ¬ (1 < s.days_left) := by omega
    rw [advance_of_new_day hg]
    simp only [advanceStep, hd', if_false, hlenI]
    split_ifs <;> omega

def c4s : CycleState := ⟨2000, 49, 1, ⟨2025, 3, 9⟩⟩

/-- Witness for C4 at the last state index: rollover wraps 49+1 to 0. -/
theorem c4_witness :
    US_STATES.length = 50 ∧
    ((advance c4s ⟨2025, 3, 10⟩).2.1).state_index = (49 + 1) % 50 :=
  ⟨c4_fifty_states.1,
   c4_fifty_states.2.2 c4s ⟨2025, 3, 10⟩ (by decide) (by decide) (by decide) (by decide)⟩

/-- C5: a missing or malformed persisted record never fails engine
construction — `_load_state` falls back to the default initial state,
persists it immediately, and `get_current()` then yields
(1980, "Alabama", 3). -/
theorem c5_load_fallback (r : ReadResult) (now : Date)
    (h : r = .missing ∨ r = .malformed) :
    load_state r now = (initialState now, true) ∧
    get_current (load_state r now).1 = (1980, "Alabama", 3) := by
  rcases h with rfl | rfl <;> exact ⟨rfl, rfl⟩

/-- Witness for C5 on a missing state file. -/
theorem c5_witness :
    load_state .missing ⟨2025, 1, 1⟩ = (initialState ⟨2025, 1, 1⟩, true) ∧
    get_current (load_state .missing ⟨2025, 1, 1⟩).1 = (1980, "Alabama", 3) :=
  c5_load_fallback .missing ⟨2025, 1, 1⟩ (Or.inl rfl)

def c6s0 : CycleState := ⟨1980, 0, 3, ⟨2025, 3, 9⟩⟩

def c6s1 : CycleState := ⟨1980, 0, 2, ⟨2025, 3, 10⟩⟩

/-- C6 counterexample: a crash between the in-place truncation and the
write leaves the state file empty — neither the old record nor the new
one — so `_save_state` is not transactional. -/
theorem c6_counterexample :
    ¬ CrashSafeSave (.record c6s0) c6s1 (save_state_ops c6s1) := by
  intro h
  have h1 := h 1
  revert h1
  decide

/-- C6 (amended): `_save_state` opens the state file for writing —
truncating it in place — and then writes the record; there is no temporary
file and no atomic rename, so whenever the file previously held anything
other than empty content, the two-step trace has a crash point (after the
truncation) at which the file holds neither the old nor the new record. -/
theorem c6_save_state_not_transactional (s : CycleState) (old : FileContent) :
    runFsOps old (save_state_ops s) = .record s ∧
    runFsOps old ((save_state_ops s).take 1) = .empty ∧
    (old ≠ .empty → ¬ CrashSafeSave old s (save_state_ops s)) := by
  refine ⟨rfl, rfl, ?_⟩
  intro hold hcs
  rcases hcs 1 with h1 | h1
  · simp only [save_state_ops, runFsOps, List.take, List.foldl, applyFsOp] at h1
    exact hold h1.symm
  · simp only [save_state_ops, runFsOps, List.take, List.foldl, applyFsOp] at h1
    exact FileContent.noConfusion h1

/-- Witness for C6 on concrete old and new records. -/
theorem c6_witness :
    runFsOps (.record c6s0) (save_state_ops c6s1) = .record c6s1 ∧
    ¬ CrashSafeSave (.record c6s0) c6s1 (save_state_ops c6s1) :=
  ⟨(c6_save_state_not_transactional c6s1 (.record c6s0)).1,
   (c6_save_state_not_transactional c6s1 (.record c6s0)).2.2 (by decide)⟩

/-! Lemmas about `simulate_days`. -/

theorem advanceStep_set_last (s : CycleState) (d : Date) :
    advanceStep { s with last_updated := d } = { advanceStep s with last_updated := d } := by
  by_cases hd : 1 < s.days_left <;> simp [advanceStep, hd]

theorem projectedTriples_set_last (s : CycleState) (d : Date) (n : Nat) :
    projectedTriples { s with last_updated := d } n = projectedTriples s n := by
  induction n generalizing s with
  | zero => rfl
  | succ n ih =>
    simp only [projectedTriples, advanceStep_set_last, get_current_set_last]
    exact congrArg _ (ih _)

theorem replaceDay_pred {now : Date} (hv : now.Valid) (hd : 2 ≤ now.day) :
    replaceDay now ((now.day : Int) - 1) = .ok { now with day := now.day - 1 } := by
  rcases hv with ⟨h1, h2, h3, h4⟩
  have hc : 1 ≤ (now.day : Int) - 1 ∧
      (now.day : Int) - 1 ≤ (daysInMonth now.year now.month : Int) := by
    constructor <;> omega
  have ht : ((now.day : Int) - 1).toNat = now.day - 1 := by omega
  unfold replaceDay
  rw [if_pos hc, ht]

theorem leb_pred_day_false {now : Date} (hd : 2 ≤ now.day) :
    Date.leb now { now with day := now.day - 1 } = false := by
  rcases now with ⟨y, m, d⟩
  replace hd : 2 ≤ d := hd
  simp only [Date.leb, Date.ltb, Date.mk.injEq]
  have h1 : ¬ (d = d - 1) := by omega
  have h2 : ¬ (d < d - 1) := by omega
  simp [h1, h2]

theorem simLoop_ok {now : Date} (hv : now.Valid) (hd : 2 ≤ now.day) :
    ∀ (n : Nat) (live persisted : CycleState),
      ∃ lf pf, simLoop live persisted now n = (.ok (projectedTriples live n), lf, pf) := by
  intro n
  induction n with
  | zero => intro live persisted; exact ⟨live, persisted, rfl⟩
  | succ n ih =>
    intro live persisted
    obtain ⟨lf, pf, hih⟩ := ih { advanceStep live with last_updated := now }
      { advanceStep live with last_updated := now }
    refine ⟨lf, pf, ?_⟩
    have hleb : Date.leb now
        ({ live with last_updated := { now with day := now.day - 1 } }).last_updated = false :=
      leb_pred_day_false hd
    simp only [simLoop, replaceDay_pred hv hd]
    rw [advance_of_new_day hleb]
    simp only [advanceStep_set_last, get_current_set_last, if_true]
    rw [hih]
    simp only [projectedTriples, projectedTriples_set_last, get_current_set_last]

/-- C8: on any day other than the first of a month, `simulate_days(n)`
returns the `n` projected cycle-step triples and leaves both the live
in-memory state and the persisted record exactly as they were before the
call — the simulation has no lasting persisted effect. -/
theorem c8_simulate_days_frame (live : CycleState) (now : Date) (n : Nat)
    (hv : now.Valid) (hd : 2 ≤ now.day) :
    simulate_days live live now n = (.ok (projectedTriples live n), live, live) := by
  obtain ⟨lf, pf, h⟩ := simLoop_ok hv hd n live live
  unfold simulate_days
  rw [h]

def c8s : CycleState := ⟨1980, 0, 3, ⟨2025, 3, 9⟩⟩

/-- Witness for C8: a two-day simulation on 2025-03-10. -/
theorem c8_witness :
    simulate_days c8s c8s ⟨2025, 3, 10⟩ 2 = (.ok (projectedTriples c8s 2), c8s, c8s) :=
  c8_simulate_days_frame c8s ⟨2025, 3, 10⟩ 2 (by decide) (by decide)

/-- C10: invoked on the first day of a month with `n ≥ 1`, `simulate_days`
raises `ValueError` from the forced-yesterday computation before producing
any result (and before touching the states); on any later day of the month
the computation succeeds. -/
theorem c10_first_of_month_value_error (live persisted : CycleState) (now : Date)
    (n : Nat) (hv : now.Valid) (hn : 1 ≤ n) :
    (now.day = 1 →
      simulate_days live persisted now n = (.error .valueError, live, persisted)) ∧
    (2 ≤ now.day →
      (simulate_days live persisted now n).1 = .ok (projectedTriples live n)) := by
  constructor
  · intro h1
    obtain ⟨m, rfl⟩ : ∃ m, n = m + 1 := ⟨n - 1, by omega⟩
    have hcond : ¬ (1 ≤ (now.day : Int) - 1 ∧
        (now.day : Int) - 1 ≤ (daysInMonth now.year now.month : Int)) := by
      rintro ⟨ha, -⟩
      omega
    have hrd : replaceDay now ((now.day : Int) - 1) = .error .valueError := by
      unfold replaceDay
      rw [if_neg hcond]
    unfold simulate_days
    simp only [simLoop, hrd]
  · intro h2
    obtain ⟨lf, pf, h⟩ := simLoop_ok hv h2 n live persisted
    unfold simulate_days
    rw [h]

def c10live : CycleState := ⟨1980, 0, 3, ⟨2025, 2, 27⟩⟩

def c10pers : CycleState := ⟨1980, 0, 2, ⟨2025, 2, 27⟩⟩

/-- Witness for C10 on 2025-03-01. -/
theorem c10_witness :
    simulate_days c10live c10pers ⟨2025, 3, 1⟩ 1 = (.error .valueError, c10live, c10pers) :=
  (c10_first_of_month_value_error c10live c10pers ⟨2025, 3, 1⟩ 1 (by decide) (by decide)).1 rfl

/-! Embedding of the briefing context (the Python dict built by
`BriefingOrchestrator.gather_data`) and of `FileWriter.get_missing_fields`.
A dict is an association list; assignment updates in place or appends. -/

/-- The briefing context: field name to string value, in insertion order. -/
abbrev Ctx := List (String × String)

/-- Python `context[k] = v`: overwrite in place, or append a new entry. -/
def ctxSet : Ctx → String → String → Ctx
  | [], k, v => [(k, v)]
  | (k0, v0) :: rest, k, v =>
    if k0 = k then (k, v) :: rest else (k0, v0) :: ctxSet rest k v

/-- Python `context.get(k)`. -/
def ctxGet : Ctx → String → Option String
  | [], _ => none
  | (k0, v0) :: rest, k => if k0 = k then some v0 else ctxGet rest k

/-- The sentinel written by the except-handlers of `gather_data`. -/
def sentinel : String := "(data unavailable)"

/-- Outcome of one external call inside a gatherer: raise, or a value. -/
inductive Call (α : Type)
  | raise
  | ok (a : α)

/-- External-call outcomes for `_gather_hacker_news`: the top-article fetch
(`None` or a (title, keywords) pair) and the two summarizer calls. -/
structure HNEnv where
  top : Call (Option (String × List String))
  summary : Call String
  keypoints : Call String

/-- Body of the `try` block of `_gather_hacker_news`: context writes in
source order, with the raised-flag set at the first raising call. -/
def hnBody (e : HNEnv) (c : Ctx) : Ctx × Bool :=
  match e.top with
  | .raise => (c, true)
  | .ok none =>
    let c := ctxSet c "YC_ARTICLE_PICK" "(No article available)"
    let c := ctxSet c "YC_ARTICLE_SUMMARY" "(Summary not available)"
    let c := ctxSet c "YC_ARTICLE_KEYPOINTS" "(Key points not available)"
    (ctxSet c "YC_ARTICLE_KEYWORDS" "(Keywords not available)", false)
  | .ok (some (title, keywords)) =>
    let c := ctxSet c "YC_ARTICLE_PICK" title
    let c := ctxSet c "YC_ARTICLE_KEYWORDS"
      (if keywords.isEmpty then "technology, startup"
       else String.intercalate ", " keywords)
    match e.summary with
    | .raise => (c, true)
    | .ok s =>
      let c := ctxSet c "YC_ARTICLE_SUMMARY" s
      match e.keypoints with
      | .raise => (c, true)
      | .ok kp => (ctxSet c "YC_ARTICLE_KEYPOINTS" kp, false)

/-- `_gather_hacker_news`: run the body; on a raise the except-handler
overwrites all four keys with the sentinel. -/
def gatherHackerNews (e : HNEnv) (c : Ctx) : Ctx :=
  match hnBody e c with
  | (c1, false) => c1
  | (c1, true) =>
    let c1 := ctxSet c1 "YC_ARTICLE_PICK" sentinel
    let c1 := ctxSet c1 "YC_ARTICLE_SUMMARY" sentinel
    let c1 := ctxSet c1 "YC_ARTICLE_KEYPOINTS" sentinel
    ctxSet c1 "YC_ARTICLE_KEYWORDS" sentinel

/-- External-call outcomes for `_gather_github_trending`: the MCP-repo
fetch (`None` or the repo full name; its description only feeds the
summarizer) and the summarizer call. -/
structure GHEnv where
  repo : Call (Option String)
  summary : Call String

/-- Body of the `try` block of `_gather_github_trending`. -/
def ghBody (e : GHEnv) (c : Ctx) : Ctx × Bool :=
  match e.repo with
  | .raise => (c, true)
  | .ok none =>
    let c := ctxSet c "GITHUB_TRENDING_MCP_NAME" "(No MCP repo found)"
    (ctxSet c "GITHUB_TRENDING_MCP_SUMMARY" "(No MCP summary available)", false)
  | .ok (some fullName) =>
    let c := ctxSet c "GITHUB_TRENDING_MCP_NAME" fullName
    match e.summary with
    | .raise => (c, true)
    | .ok s => (ctxSet c "GITHUB_TRENDING_MCP_SUMMARY" s, false)

/-- `_gather_github_trending` with its except-handler. -/
def gatherGithubTrending (e : GHEnv) (c : Ctx) : Ctx :=
  match ghBody e c with
  | (c1, false) => c1
  | (c1, true) =>
    ctxSet (ctxSet c1 "GITHUB_TRENDING_MCP_NAME" sentinel)
      "GITHUB_TRENDING_MCP_SUMMARY" sentinel

/-- External-call outcomes for `_gather_sheets_data`: the connection test,
the transcript fetch (date string and optional analysis title per row), the
CS-terms fetch, and the Spanish-phrases fetch; `csPick`/`esPick` model the
`random.choice` draws. -/
structure SheetsEnv where
  conn : Call Bool
  transcripts : Call (List (String × Option String))
  csTerms : Call (List (String × String))
  csPick : Nat
  spanishPhrases : Call (List (String × String))
  esPick : Nat

/-- The `TRANSCRIPT_TABLE` text built from the three most recent
transcripts: per transcript a header line, the analysis (title or the
fallback text), and a blank spacer line, joined with newlines. -/
def transcriptTable (ts : List (String × Option String)) : String :=
  String.intercalate "\n"
    ((ts.take 3).flatMap (fun p =>
      ["Analysis for " ++ p.1 ++ ":", p.2.getD "No analysis available", ""]))

/-- Body of the `try` block of `_gather_sheets_data`.  A failed connection
test writes three fallback messages and returns early; note that neither
that path nor the except-handler ever writes `QUIZ_ME_CS_DEFINE` or
`QuizMeIngles`. -/
def sheetsBody (e : SheetsEnv) (c : Ctx) : Ctx × Bool :=
  match e.conn with
  | .raise => (c, true)
  | .ok false =>
    let c := ctxSet c "TRANSCRIPT_TABLE" "Google Sheets connection failed"
    let c := ctxSet c "QUIZ_ME_CS_TERM" "CS quiz not available"
    (ctxSet c "QUIZ_ME_ESPANOL" "Spanish quiz not available", false)
  | .ok true =>
    match e.transcripts with
    | .raise => (c, true)
    | .ok ts =>
      let c := ctxSet c "TRANSCRIPT_TABLE"
        (if ts.isEmpty then "No transcripts available for analysis"
         else transcriptTable ts)
      match e.csTerms with
      | .raise => (c, true)
      | .ok terms =>
        let c := ctxSet c "QUIZ_ME_CS_TERM"
          (if terms.isEmpty then "CS quiz not available"
           else (terms.getD (e.csPick % terms.length) ("", "")).1)
        let c := ctxSet c "QUIZ_ME_CS_DEFINE"
          (if terms.isEmpty then "Definition not available"
           else (terms.getD (e.csPick % terms.length) ("", "")).2)
        match e.spanishPhrases with
        | .raise => (c, true)
        | .ok phrases =>
          let c := ctxSet c "QUIZ_ME_ESPANOL"
            (if phrases.isEmpty then "Spanish quiz not available"
             else (phrases.getD (e.esPick % phrases.length) ("", "")).1)
          (ctxSet c "QuizMeIngles"
            (if phrases.isEmpty then "English translation not available"
             else (phrases.getD (e.esPick % phrases.length) ("", "")).2), false)

/-- `_gather_sheets_data`: the except-handler writes the sentinel into only
`TRANSCRIPT_TABLE`, `QUIZ_ME_CS_TERM` and `QUIZ_ME_ESPANOL`. -/
def gatherSheetsData (e : SheetsEnv) (c : Ctx) : Ctx :=
  match sheetsBody e c with
  | (c1, false) => c1
  | (c1, true) =>
    let c1 := ctxSet c1 "TRANSCRIPT_TABLE" sentinel
    let c1 := ctxSet c1 "QUIZ_ME_CS_TERM" sentinel
    ctxSet c1 "QUIZ_ME_ESPANOL" sentinel

/-- External-call outcome for `_gather_country_data`: `None` or the
(name, capital, location description) triple. -/
structure CountryEnv where
  result : Call (Option (String × String × String))

/-- Body of the `try` block of `_gather_country_data`. -/
def countryBody (e : CountryEnv) (c : Ctx) : Ctx × Bool :=
  match e.result with
  | .raise => (c, true)
  | .ok none =>
    let c := ctxSet c "COUNTRY_OF_THE_DAY" "(Country not available)"
    let c := ctxSet c "COUNTRY_CAPITAL_OF_THE_DAY" "(Capital not available)"
    (ctxSet c "CAPITAL_LOCATION_BREAKDOWN" "(Location not available)", false)
  | .ok (some (name, capital, loc)) =>
    let c := ctxSet c "COUNTRY_OF_THE_DAY" name
    let c := ctxSet c "COUNTRY_CAPITAL_OF_THE_DAY" capital
    (ctxSet c "CAPITAL_LOCATION_BREAKDOWN" loc, false)

/-- `_gather_country_data` with its except-handler. -/
def gatherCountryData (e : CountryEnv) (c : Ctx) : Ctx :=
  match countryBody e c with
  | (c1, false) => c1
  | (c1, true) =>
    let c1 := ctxSet c1 "COUNTRY_OF_THE_DAY" sentinel
    let c1 := ctxSet c1 "COUNTRY_CAPITAL_OF_THE_DAY" sentinel
    ctxSet c1 "CAPITAL_LOCATION_BREAKDOWN" sentinel

/-- An Oscars.csv row matched for the study year. -/
structure OscarRow where
  bestPicture : String
  bestActor : String
  bestCinematography : String
  bestScore : String
  bestForeignFilm : String

/-- External-call outcomes for `_gather_year_based_data`: the Oscars CSV
lookup, the five movie-summary calls, the Presidents CSV lookup and the
Inventions CSV lookup. -/
structure YearEnv where
  oscars : Call (Option OscarRow)
  sumPicture : Call String
  sumActor : Call String
  sumCinematography : Call String
  sumScore : Call String
  sumForeignFilm : Call String
  presidents : Call (Option (String × String × String))
  inventions : Call (Option (String × String))

/-- Sequencing of two `try`-body stages: a raise short-circuits. -/
def andThen (a : Ctx × Bool) (f : Ctx → Ctx × Bool) : Ctx × Bool :=
  match a with
  | (c, true) => (c, true)
  | (c, false) => f c

/-- The Oscars section of `_gather_year_based_data`: the no-row branch
writes the ten message values, the row branch writes the five raw values
and then runs the five summarizer calls in order. -/
def yearOscars (year : Int) (e : YearEnv) (c : Ctx) : Ctx × Bool :=
  match e.oscars with
  | .raise => (c, true)
  | .ok none =>
    let msg := "No Oscars ceremony held in " ++ toString year
    let c := ctxSet c "CURRENT_YEAR_BEST_PICTURE" msg
    let c := ctxSet c "CURRENT_YEAR_BEST_ACTOR_IN_PICTURE" msg
    let c := ctxSet c "CURRENT_YEAR_BEST_CINEMATOGRAPHY" msg
    let c := ctxSet c "CURRENT_YEAR_BEST_SCORE" msg
    let c := ctxSet c "CURRENT_YEAR_BEST_FOREIGN_FILM" msg
    let c := ctxSet c "CURRENT_YEAR_BEST_PICTURE_SUM" msg
    let c := ctxSet c "CURRENT_YEAR_BEST_ACTOR_IN_PICTURE_SUM" msg
    let c := ctxSet c "CURRENT_YEAR_BEST_CINEMATOGRAPHY_SUM" msg
    let c := ctxSet c "CURRENT_YEAR_BEST_SCORE_SUM" msg
    (ctxSet c "CURRENT_YEAR_BEST_FOREIGN_FILM_SUM" msg, false)
  | .ok (some row) =>
    let c := ctxSet c "CURRENT_YEAR_BEST_PICTURE" row.bestPicture
    let c := ctxSet c "CURRENT_YEAR_BEST_ACTOR_IN_PICTURE" row.bestActor
    let c := ctxSet c "CURRENT_YEAR_BEST_CINEMATOGRAPHY" row.bestCinematography
    let c := ctxSet c "CURRENT_YEAR_BEST_SCORE" row.bestScore
    let c := ctxSet c "CURRENT_YEAR_BEST_FOREIGN_FILM" row.bestForeignFilm
    match e.sumPicture with
    | .raise => (c, true)
    | .ok s1 =>
      let c := ctxSet c "CURRENT_YEAR_BEST_PICTURE_SUM" s1
      match e.sumActor with
      | .raise => (c, true)
      | .ok s2 =>
        let c := ctxSet c "CURRENT_YEAR_BEST_ACTOR_IN_PICTURE_SUM" s2
        match e.sumCinematography with
        | .raise => (c, true)
        | .ok s3 =>
          let c := ctxSet c "CURRENT_YEAR_BEST_CINEMATOGRAPHY_SUM" s3
          match e.sumScore with
          | .raise => (c, true)
          | .ok s4 =>
            let c := ctxSet c "CURRENT_YEAR_BEST_SCORE_SUM" s4
            match e.sumForeignFilm with
            | .raise => (c, true)
            | .ok s5 => (ctxSet c "CURRENT_YEAR_BEST_FOREIGN_FILM_SUM" s5, false)

/-- The Presidents section of `_gather_year_based_data`. -/
def yearPresidents (year : Int) (e : YearEnv) (c : Ctx) : Ctx × Bool :=
  match e.presidents with
  | .raise => (c, true)
  | .ok none =>
    let c := ctxSet c "CURRENT_YEAR_US_PRESIDENT_VPS"
      ("Presidential data not available for " ++ toString year)
    (ctxSet c "NEW_MAJOR_PRESIDENTIAL_DECISION"
      ("Presidential decision data not available for " ++ toString year), false)
  | .ok (some (pres, vp, decision)) =>
    let c := ctxSet c "CURRENT_YEAR_US_PRESIDENT_VPS"
      (pres ++ " (President), " ++ vp ++ " (Vice President)")
    (ctxSet c "NEW_MAJOR_PRESIDENTIAL_DECISION" decision, false)

/-- The Inventions section of `_gather_year_based_data`. -/
def yearInventions (year : Int) (e : YearEnv) (c : Ctx) : Ctx × Bool :=
  match e.inventions with
  | .raise => (c, true)
  | .ok none =>
    let c := ctxSet c "MAJOR_INVENTION_OF_YEAR"
      ("No major invention recorded for " ++ toString year)
    (ctxSet c "MAJOR_INVENTION_SUMMARY"
      ("No invention summary available for " ++ toString year), false)
  | .ok (some (inv, summ)) =>
    (ctxSet (ctxSet c "MAJOR_INVENTION_OF_YEAR" inv) "MAJOR_INVENTION_SUMMARY" summ, false)

/-- Body of the `try` block of `_gather_year_based_data`: Oscars, then
Presidents, then Inventions. -/
def yearBody (year : Int) (e : YearEnv) (c : Ctx) : Ctx × Bool :=
  andThen (andThen (yearOscars year e c) (yearPresidents year e)) (yearInventions year e)

/-- `_gather_year_based_data`: the except-handler writes the sentinel into
all fourteen keys. -/
def gatherYearBasedData (year : Int) (e : YearEnv) (c : Ctx) : Ctx :=
  match yearBody year e c with
  | (c1, false) => c1
  | (c1, true) =>
    let c1 := ctxSet c1 "CURRENT_YEAR_BEST_PICTURE" sentinel
    let c1 := ctxSet c1 "CURRENT_YEAR_BEST_ACTOR_IN_PICTURE" sentinel
    let c1 := ctxSet c1 "CURRENT_YEAR_BEST_CINEMATOGRAPHY" sentinel
    let c1 := ctxSet c1 "CURRENT_YEAR_BEST_SCORE" sentinel
    let c1 := ctxSet c1 "CURRENT_YEAR_BEST_FOREIGN_FILM" sentinel
    let c1 := ctxSet c1 "CURRENT_YEAR_BEST_PICTURE_SUM" sentinel
    let c1 := ctxSet c1 "CURRENT_YEAR_BEST_ACTOR_IN_PICTURE_SUM" sentinel
    let c1 := ctxSet c1 "CURRENT_YEAR_BEST_CINEMATOGRAPHY_SUM" sentinel
    let c1 := ctxSet c1 "CURRENT_YEAR_BEST_SCORE_SUM" sentinel
    let c1 := ctxSet c1 "CURRENT_YEAR_BEST_FOREIGN_FILM_SUM" sentinel
    let c1 := ctxSet c1 "CURRENT_YEAR_US_PRESIDENT_VPS" sentinel
    let c1 := ctxSet c1 "NEW_MAJOR_PRESIDENTIAL_DECISION" sentinel
    let c1 := ctxSet c1 "MAJOR_INVENTION_OF_YEAR" sentinel
    ctxSet c1 "MAJOR_INVENTION_SUMMARY" sentinel

/-- External-call outcomes for `_gather_generated_facts`: the twelve
fact/summary calls run under `asyncio.gather(..., return_exceptions=True)`
(so a raise is delivered as a value, never propagated), and the
codebase-of-the-day call guarded by its own inner `try`. -/
structure FactsEnv where
  ww1 : Call String
  ww2 : Call String
  europe : Call String
  ireland : Call String
  jerusalem : Call String
  india : Call String
  mexico : Call String
  stuntRigging : Call String
  bike : Call String
  nasaLaunch : Call String
  gc : Call String
  golf : Call String
  codebase : Call (String × String)

/-- `facts[i] if not isinstance(facts[i], Exception) else "(data unavailable)"`. -/
def factValue : Call String → String
  | .raise => sentinel
  | .ok s => s

/-- `_gather_generated_facts`: every fact key is always written (sentinel
for a raising sub-call); the codebase keys get their own fallback messages
from the inner except-handler. -/
def gatherGeneratedFacts (e : FactsEnv) (c : Ctx) : Ctx :=
  let c := ctxSet c "WW1_FACT" (factValue e.ww1)
  let c := ctxSet c "WW2_FACT" (factValue e.ww2)
  let c := ctxSet c "EUROPE_FACT" (factValue e.europe)
  let c := ctxSet c "IRELAND_FACT" (factValue e.ireland)
  let c := ctxSet c "JERUSALEM_FACT" (factValue e.jerusalem)
  let c := ctxSet c "INDIA_FACT" (factValue e.india)
  let c := ctxSet c "MEXICO_FACT" (factValue e.mexico)
  let c := ctxSet c "STUNT_RIGGING_SUMMARY" (factValue e.stuntRigging)
  let c := ctxSet c "BIKE_FUN_FACT" (factValue e.bike)
  let c := ctxSet c "NASA_LAUNCH_HISTORY" (factValue e.nasaLaunch)
  let c := ctxSet c "TEACH_ME_GC" (factValue e.gc)
  let c := ctxSet c "CURRENT_GOLF_STATE_SUMMARY" (factValue e.golf)
  match e.codebase with
  | .raise =>
    ctxSet (ctxSet c "CODEBASE_TODAY" "(Codebase not available)")
      "CODEBASE_SUMMARY" "(Summary not available)"
  | .ok (n, s) => ctxSet (ctxSet c "CODEBASE_TODAY" n) "CODEBASE_SUMMARY" s

/-- External-call outcome for `_gather_language_section`: the formatted
daily section, `None`, or a raise anywhere in the `try` block. -/
structure LangEnv where
  daily : Call (Option String)

/-- `_gather_language_section` with its except-handler. -/
def gatherLanguageSection (e : LangEnv) (c : Ctx) : Ctx :=
  match e.daily with
  | .raise => ctxSet c "DAILY_LANGUAGE_SECTION" "(Language section unavailable)"
  | .ok none => ctxSet c "DAILY_LANGUAGE_SECTION" "(Language section not available)"
  | .ok (some s) => ctxSet c "DAILY_LANGUAGE_SECTION" s

/-- All external inputs of one `gather_data` run: the formatted date, the
cycle triple returned by `advance()`, and each gatherer's call outcomes. -/
structure GatherEnv where
  fulldate : String
  year : Int
  stateName : String
  daysLeft : Int
  hn : HNEnv
  gh : GHEnv
  sheets : SheetsEnv
  country : CountryEnv
  yearData : YearEnv
  facts : FactsEnv
  lang : LangEnv

/-- `BriefingOrchestrator.gather_data`: the base entries followed by the
seven gatherers in source order. -/
def gather_data (e : GatherEnv) : Ctx :=
  let c : Ctx := []
  let c := ctxSet c "FULLDATE" e.fulldate
  let c := ctxSet c "CURRENT_STUDY_YEAR" (toString e.year)
  let c := ctxSet c "CURRENT_STUDY_STATE" e.stateName
  let c := ctxSet c "DAYS_LEFT" (toString e.daysLeft)
  let c := ctxSet c "GET_TO_IT_SAYING" "dive into"
  let c := gatherHackerNews e.hn c
  let c := gatherGithubTrending e.gh c
  let c := gatherSheetsData e.sheets c
  let c := gatherCountryData e.country c
  let c := gatherYearBasedData e.year e.yearData c
  let c := gatherGeneratedFacts e.facts c
  gatherLanguageSection e.lang c

/-- The fixed enumerated vocabulary: the union of keys `gather_data`
populates on a fully successful run. -/
def vocabulary : List String := [
  "FULLDATE", "CURRENT_STUDY_YEAR", "CURRENT_STUDY_STATE", "DAYS_LEFT",
  "GET_TO_IT_SAYING",
  "YC_ARTICLE_PICK", "YC_ARTICLE_SUMMARY", "YC_ARTICLE_KEYPOINTS",
  "YC_ARTICLE_KEYWORDS",
  "GITHUB_TRENDING_MCP_NAME", "GITHUB_TRENDING_MCP_SUMMARY",
  "TRANSCRIPT_TABLE", "QUIZ_ME_CS_TERM", "QUIZ_ME_CS_DEFINE",
  "QUIZ_ME_ESPANOL", "QuizMeIngles",
  "COUNTRY_OF_THE_DAY", "COUNTRY_CAPITAL_OF_THE_DAY",
  "CAPITAL_LOCATION_BREAKDOWN",
  "CURRENT_YEAR_BEST_PICTURE", "CURRENT_YEAR_BEST_ACTOR_IN_PICTURE",
  "CURRENT_YEAR_BEST_CINEMATOGRAPHY", "CURRENT_YEAR_BEST_SCORE",
  "CURRENT_YEAR_BEST_FOREIGN_FILM",
  "CURRENT_YEAR_BEST_PICTURE_SUM", "CURRENT_YEAR_BEST_ACTOR_IN_PICTURE_SUM",
  "CURRENT_YEAR_BEST_CINEMATOGRAPHY_SUM", "CURRENT_YEAR_BEST_SCORE_SUM",
  "CURRENT_YEAR_BEST_FOREIGN_FILM_SUM",
  "CURRENT_YEAR_US_PRESIDENT_VPS", "NEW_MAJOR_PRESIDENTIAL_DECISION",
  "MAJOR_INVENTION_OF_YEAR", "MAJOR_INVENTION_SUMMARY",
  "WW1_FACT", "WW2_FACT", "EUROPE_FACT", "IRELAND_FACT", "JERUSALEM_FACT",
  "INDIA_FACT", "MEXICO_FACT",
  "STUNT_RIGGING_SUMMARY", "BIKE_FUN_FACT", "NASA_LAUNCH_HISTORY",
  "TEACH_ME_GC", "CURRENT_GOLF_STATE_SUMMARY",
  "CODEBASE_TODAY", "CODEBASE_SUMMARY", "DAILY_LANGUAGE_SECTION"]

/-- `FileWriter.get_missing_fields`: the keys of the context entries whose
value is falsy (the empty string) or the sentinel, in iteration order. -/
def get_missing_fields : Ctx → List String
  | [] => []
  | (k, v) :: rest =>
    if v = "" ∨ v = sentinel then k :: get_missing_fields rest
    else get_missing_fields rest

/-- Whether the except-handler of `_gather_hacker_news` ran. -/
def hnRaised (e : HNEnv) : Bool :=
  match e.top with
  | .raise => true
  | .ok none => false
  | .ok (some _) =>
    match e.summary with
    | .raise => true
    | .ok _ =>
      match e.keypoints with
      | .raise => true
      | .ok _ => false

/-- Whether the except-handler of `_gather_github_trending` ran. -/
def ghRaised (e : GHEnv) : Bool :=
  match e.repo with
  | .raise => true
  | .ok none => false
  | .ok (some _) =>
    match e.summary with
    | .raise => true
    | .ok _ => false

/-- Whether the except-handler of `_gather_sheets_data` ran. -/
def sheetsRaised (e : SheetsEnv) : Bool :=
  match e.conn with
  | .raise => true
  | .ok false => false
  | .ok true =>
    match e.transcripts with
    | .raise => true
    | .ok _ =>
      match e.csTerms with
      | .raise => true
      | .ok _ =>
        match e.spanishPhrases with
        | .raise => true
        | .ok _ => false

/-- Whether `_gather_sheets_data` finishes without ever writing
`QUIZ_ME_CS_DEFINE`: the connection test fails or raises, or the
transcript or CS-terms fetch raises. -/
def csDefineAbsent (e : SheetsEnv) : Bool :=
  match e.conn with
  | .raise => true
  | .ok false => true
  | .ok true =>
    match e.transcripts with
    | .raise => true
    | .ok _ =>
      match e.csTerms with
      | .raise => true
      | .ok _ => false

/-- Whether `_gather_sheets_data` finishes without ever writing
`QuizMeIngles`: any of the sheets calls raises or the connection fails. -/
def inglesAbsent (e : SheetsEnv) : Bool :=
  match e.conn with
  | .raise => true
  | .ok false => true
  | .ok true =>
    match e.transcripts with
    | .raise => true
    | .ok _ =>
      match e.csTerms with
      | .raise => true
      | .ok _ =>
        match e.spanishPhrases with
        | .raise => true
        | .ok _ => false

/-- Whether the except-handler of `_gather_country_data` ran. -/
def countryRaised (e : CountryEnv) : Bool :=
  match e.result with
  | .raise => true
  | .ok _ => false

/-! Lookup lemmas for the context and the gatherers. -/

theorem ctxGet_ctxSet (c : Ctx) (k v k' : String) :
    ctxGet (ctxSet c k v) k' = if k = k' then some v else ctxGet c k' := by
  induction c with
  | nil => by_cases hk : k = k' <;> simp [ctxSet, ctxGet, hk]
  | cons hd tl ih =>
    obtain ⟨k0, v0⟩ := hd
    by_cases h0 : k0 = k
    · subst h0
      by_cases hk : k0 = k' <;> simp [ctxSet, ctxGet, hk]
    · by_cases hk : k0 = k'
      · subst hk
        have hne : ¬ k = k0 := fun h => h0 h.symm
        simp [ctxSet, ctxGet, h0, hne]
      · simp [ctxSet, ctxGet, h0, hk, ih]

def hnKeys : List String :=
  ["YC_ARTICLE_PICK", "YC_ARTICLE_SUMMARY", "YC_ARTICLE_KEYPOINTS",
   "YC_ARTICLE_KEYWORDS"]

theorem hn_preserve (e : HNEnv) (c : Ctx) (k : String) (hk : k ∉ hnKeys) :
    ctxGet (gatherHackerNews e c) k = ctxGet c k := by
  simp only [hnKeys, List.mem_cons, List.not_mem_nil, or_false, not_or] at hk
  obtain ⟨n1, n2, n3, n4⟩ := hk
  rcases e with ⟨top, summ, kp⟩
  rcases top with _ | (_ | ⟨title, kws⟩) <;>
    rcases summ with _ | s <;>
      rcases kp with _ | k2 <;>
        simp [gatherHackerNews, hnBody, ctxGet_ctxSet,
          Ne.symm n1, Ne.symm n2, Ne.symm n3, Ne.symm n4]

theorem hn_covers (e : HNEnv) (c : Ctx) :
    (ctxGet (gatherHackerNews e c) "YC_ARTICLE_PICK").isSome = true ∧
    (ctxGet (gatherHackerNews e c) "YC_ARTICLE_SUMMARY").isSome = true ∧
    (ctxGet (gatherHackerNews e c) "YC_ARTICLE_KEYPOINTS").isSome = true ∧
    (ctxGet (gatherHackerNews e c) "YC_ARTICLE_KEYWORDS").isSome = true := by
  rcases e with ⟨top, summ, kp⟩
  rcases top with _ | (_ | ⟨title, kws⟩) <;>
    rcases summ with _ | s <;>
      rcases kp with _ | k2 <;>
        simp [gatherHackerNews, hnBody, ctxGet_ctxSet]

theorem hn_sentinel (e : HNEnv) (c : Ctx) (h : hnRaised e = true) :
    ctxGet (gatherHackerNews e c) "YC_ARTICLE_PICK" = some sentinel ∧
    ctxGet (gatherHackerNews e c) "YC_ARTICLE_SUMMARY" = some sentinel ∧
    ctxGet (gatherHackerNews e c) "YC_ARTICLE_KEYPOINTS" = some sentinel ∧
    ctxGet (gatherHackerNews e c) "YC_ARTICLE_KEYWORDS" = some sentinel := by
  rcases e with ⟨top, summ, kp⟩
  rcases top with _ | (_ | ⟨title, kws⟩) <;>
    rcases summ with _ | s <;>
      rcases kp with _ | k2 <;>
        simp_all [hnRaised, gatherHackerNews, hnBody, ctxGet_ctxSet]

def ghKeys : List String :=
  ["GITHUB_TRENDING_MCP_NAME", "GITHUB_TRENDING_MCP_SUMMARY"]

theorem gh_preserve (e : GHEnv) (c : Ctx) (k : String) (hk : k ∉ ghKeys) :
    ctxGet (gatherGithubTrending e c) k = ctxGet c k := by
  simp only [ghKeys, List.mem_cons, List.not_mem_nil, or_false, not_or] at hk
  obtain ⟨n1, n2⟩ := hk
  rcases e with ⟨repo, summ⟩
  rcases repo with _ | (_ | name) <;>
    rcases summ with _ | s <;>
      simp [gatherGithubTrending, ghBody, ctxGet_ctxSet, Ne.symm n1, Ne.symm n2]

theorem gh_covers (e : GHEnv) (c : Ctx) :
    (ctxGet (gatherGithubTrending e c) "GITHUB_TRENDING_MCP_NAME").isSome = true ∧
    (ctxGet (gatherGithubTrending e c) "GITHUB_TRENDING_MCP_SUMMARY").isSome = true := by
  rcases e with ⟨repo, summ⟩
  rcases repo with _ | (_ | name) <;>
    rcases summ with _ | s <;>
      simp [gatherGithubTrending, ghBody, ctxGet_ctxSet]

theorem gh_sentinel (e : GHEnv) (c : Ctx) (h : ghRaised e = true) :
    ctxGet (gatherGithubTrending e c) "GITHUB_TRENDING_MCP_NAME" = some sentinel ∧
    ctxGet (gatherGithubTrending e c) "GITHUB_TRENDING_MCP_SUMMARY" = some sentinel := by
  rcases e with ⟨repo, summ⟩
  rcases repo with _ | (_ | name) <;>
    rcases summ with _ | s <;>
      simp_all [ghRaised, gatherGithubTrending, ghBody, ctxGet_ctxSet]

def countryKeys : List String :=
  ["COUNTRY_OF_THE_DAY", "COUNTRY_CAPITAL_OF_THE_DAY",
   "CAPITAL_LOCATION_BREAKDOWN"]

theorem country_preserve (e : CountryEnv) (c : Ctx) (k : String)
    (hk : k ∉ countryKeys) :
    ctxGet (gatherCountryData e c) k = ctxGet c k := by
  simp only [countryKeys, List.mem_cons, List.not_mem_nil, or_false, not_or] at hk
  obtain ⟨n1, n2, n3⟩ := hk
  rcases e with ⟨res⟩
  rcases res with _ | (_ | ⟨name, capital, loc⟩) <;>
    simp [gatherCountryData, countryBody, ctxGet_ctxSet,
      Ne.symm n1, Ne.symm n2, Ne.symm n3]

theorem country_covers (e : CountryEnv) (c : Ctx) :
    (ctxGet (gatherCountryData e c) "COUNTRY_OF_THE_DAY").isSome = true ∧
    (ctxGet (gatherCountryData e c) "COUNTRY_CAPITAL_OF_THE_DAY").isSome = true ∧
    (ctxGet (gatherCountryData e c) "CAPITAL_LOCATION_BREAKDOWN").isSome = true := by
  rcases e with ⟨res⟩
  rcases res with _ | (_ | ⟨name, capital, loc⟩) <;>
    simp [gatherCountryData, countryBody, ctxGet_ctxSet]

theorem country_sentinel (e : CountryEnv) (c : Ctx) (h : countryRaised e = true) :
    ctxGet (gatherCountryData e c) "COUNTRY_OF_THE_DAY" = some sentinel ∧
    ctxGet (gatherCountryData e c) "COUNTRY_CAPITAL_OF_THE_DAY" = some sentinel ∧
    ctxGet (gatherCountryData e c) "CAPITAL_LOCATION_BREAKDOWN" = some sentinel := by
  rcases e with ⟨res⟩
  rcases res with _ | (_ | ⟨name, capital, loc⟩) <;>
    simp_all [countryRaised, gatherCountryData, countryBody, ctxGet_ctxSet]

theorem lang_preserve (e : LangEnv) (c : Ctx) (k : String)
    (hk : ¬ "DAILY_LANGUAGE_SECTION" = k) :
    ctxGet (gatherLanguageSection e c) k = ctxGet c k := by
  rcases e with ⟨daily⟩
  rcases daily with _ | (_ | s) <;>
    simp [gatherLanguageSection, ctxGet_ctxSet, hk]

theorem lang_covers (e : LangEnv) (c : Ctx) :
    (ctxGet (gatherLanguageSection e c) "DAILY_LANGUAGE_SECTION").isSome = true := by
  rcases e with ⟨daily⟩
  rcases daily with _ | (_ | s) <;>
    simp [gatherLanguageSection, ctxGet_ctxSet]

theorem lang_raise_message (e : LangEnv) (c : Ctx) (h : e.daily = .raise) :
    ctxGet (gatherLanguageSection e c) "DAILY_LANGUAGE_SECTION" =
      some "(Language section unavailable)" := by
  rcases e with ⟨daily⟩
  subst h
  simp [gatherLanguageSection, ctxGet_ctxSet]

def sheetsKeys : List String :=
  ["TRANSCRIPT_TABLE", "QUIZ_ME_CS_TERM", "QUIZ_ME_CS_DEFINE",
   "QUIZ_ME_ESPANOL", "QuizMeIngles"]

theorem sheets_preserve (e : SheetsEnv) (c : Ctx) (k : String)
    (hk : k ∉ sheetsKeys) :
    ctxGet (gatherSheetsData e c) k = ctxGet c k := by
  simp only [sheetsKeys, List.mem_cons, List.not_mem_nil, or_false, not_or] at hk
  obtain ⟨n1, n2, n3, n4, n5⟩ := hk
  rcases e with ⟨conn, ts, cs, cp, es, ep⟩
  rcases conn with _ | b
  · simp [gatherSheetsData, sheetsBody, ctxGet_ctxSet,
      Ne.symm n1, Ne.symm n2, Ne.symm n4]
  · cases b
    · simp [gatherSheetsData, sheetsBody, ctxGet_ctxSet,
        Ne.symm n1, Ne.symm n2, Ne.symm n4]
    · rcases ts with _ | tl <;>
        rcases cs with _ | terms <;>
          rcases es with _ | phrases <;>
            simp [gatherSheetsData, sheetsBody, ctxGet_ctxSet,
              Ne.symm n1, Ne.symm n2, Ne.symm n3, Ne.symm n4, Ne.symm n5]

theorem sheets_covers (e : SheetsEnv) (c : Ctx) :
    (ctxGet (gatherSheetsData e c) "TRANSCRIPT_TABLE").isSome = true ∧
    (ctxGet (gatherSheetsData e c) "QUIZ_ME_CS_TERM").isSome = true ∧
    (ctxGet (gatherSheetsData e c) "QUIZ_ME_ESPANOL").isSome = true := by
  rcases e with ⟨conn, ts, cs, cp, es, ep⟩
  rcases conn with _ | b
  · simp [gatherSheetsData, sheetsBody, ctxGet_ctxSet]
  · cases b
    · simp [gatherSheetsData, sheetsBody, ctxGet_ctxSet]
    · rcases ts with _ | tl <;>
        rcases cs with _ | terms <;>
          rcases es with _ | phrases <;>
            simp [gatherSheetsData, sheetsBody, ctxGet_ctxSet]

theorem sheets_sentinel (e : SheetsEnv) (c : Ctx) (h : sheetsRaised e = true) :
    ctxGet (gatherSheetsData e c) "TRANSCRIPT_TABLE" = some sentinel ∧
    ctxGet (gatherSheetsData e c) "QUIZ_ME_CS_TERM" = some sentinel ∧
    ctxGet (gatherSheetsData e c) "QUIZ_ME_ESPANOL" = some sentinel := by
  rcases e with ⟨conn, ts, cs, cp, es, ep⟩
  rcases conn with _ | b
  · simp [gatherSheetsData, sheetsBody, ctxGet_ctxSet]
  · cases b
    · simp [sheetsRaised] at h
    · rcases ts with _ | tl <;>
        rcases cs with _ | terms <;>
          rcases es with _ | phrases <;>
            simp_all [sheetsRaised, gatherSheetsData, sheetsBody, ctxGet_ctxSet]

theorem sheets_csdefine_absent (e : SheetsEnv) (c : Ctx)
    (h : csDefineAbsent e = true) :
    ctxGet (gatherSheetsData e c) "QUIZ_ME_CS_DEFINE" =
      ctxGet c "QUIZ_ME_CS_DEFINE" := by
  rcases e with ⟨conn, ts, cs, cp, es, ep⟩
  rcases conn with _ | b
  · simp [gatherSheetsData, sheetsBody, ctxGet_ctxSet]
  · cases b
    · simp [gatherSheetsData, sheetsBody, ctxGet_ctxSet]
    · rcases ts with _ | tl <;>
        rcases cs with _ | terms <;>
          rcases es with _ | phrases <;>
            simp_all [csDefineAbsent, gatherSheetsData, sheetsBody, ctxGet_ctxSet]

theorem sheets_csdefine_present (e : SheetsEnv) (c : Ctx)
    (h : csDefineAbsent e = false) :
    (ctxGet (gatherSheetsData e c) "QUIZ_ME_CS_DEFINE").isSome = true := by
  rcases e with ⟨conn, ts, cs, cp, es, ep⟩
  rcases conn with _ | b
  · simp [csDefineAbsent] at h
  · cases b
    · simp [csDefineAbsent] at h
    · rcases ts with _ | tl <;>
        rcases cs with _ | terms <;>
          rcases es with _ | phrases <;>
            simp_all [csDefineAbsent, gatherSheetsData, sheetsBody, ctxGet_ctxSet]

theorem sheets_ingles_absent (e : SheetsEnv) (c : Ctx)
    (h : inglesAbsent e = true) :
    ctxGet (gatherSheetsData e c) "QuizMeIngles" = ctxGet c "QuizMeIngles" := by
  rcases e with ⟨conn, ts, cs, cp, es, ep⟩
  rcases conn with _ | b
  · simp [gatherSheetsData, sheetsBody, ctxGet_ctxSet]
  · cases b
    · simp [gatherSheetsData, sheetsBody, ctxGet_ctxSet]
    · rcases ts with _ | tl <;>
        rcases cs with _ | terms <;>
          rcases es with _ | phrases <;>
            simp_all [inglesAbsent, gatherSheetsData, sheetsBody, ctxGet_ctxSet]

theorem sheets_ingles_present (e : SheetsEnv) (c : Ctx)
    (h : inglesAbsent e = false) :
    (ctxGet (gatherSheetsData e c) "QuizMeIngles").isSome = true := by
  rcases e with ⟨conn, ts, cs, cp, es, ep⟩
  rcases conn with _ | b
  · simp [inglesAbsent] at h
  · cases b
    · simp [inglesAbsent] at h
    · rcases ts with _ | tl <;>
        rcases cs with _ | terms <;>
          rcases es with _ | phrases <;>
            simp_all [inglesAbsent, gatherSheetsData, sheetsBody, ctxGet_ctxSet]

def factsKeys : List String :=
  ["WW1_FACT", "WW2_FACT", "EUROPE_FACT", "IRELAND_FACT", "JERUSALEM_FACT",
   "INDIA_FACT", "MEXICO_FACT", "STUNT_RIGGING_SUMMARY", "BIKE_FUN_FACT",
   "NASA_LAUNCH_HISTORY", "TEACH_ME_GC", "CURRENT_GOLF_STATE_SUMMARY",
   "CODEBASE_TODAY", "CODEBASE_SUMMARY"]

theorem facts_preserve (e : FactsEnv) (c : Ctx) (k : String)
    (hk : k ∉ factsKeys) :
    ctxGet (gatherGeneratedFacts e c) k = ctxGet c k := by
  simp only [factsKeys, List.mem_cons, List.not_mem_nil, or_false, not_or] at hk
  obtain ⟨n1, n2, n3, n4, n5, n6, n7, n8, n9, n10, n11, n12, n13, n14⟩ := hk
  rcases e with ⟨f1, f2, f3, f4, f5, f6, f7, f8, f9, f10, f11, f12, cb⟩
  rcases cb with _ | ⟨nm, sm⟩ <;>
    simp [gatherGeneratedFacts, ctxGet_ctxSet,
      Ne.symm n1, Ne.symm n2, Ne.symm n3, Ne.symm n4, Ne.symm n5, Ne.symm n6,
      Ne.symm n7, Ne.symm n8, Ne.symm n9, Ne.symm n10, Ne.symm n11,
      Ne.symm n12, Ne.symm n13, Ne.symm n14]

theorem facts_covers (e : FactsEnv) (c : Ctx) :
    (ctxGet (gatherGeneratedFacts e c) "WW1_FACT").isSome = true ∧
    (ctxGet (gatherGeneratedFacts e c) "WW2_FACT").isSome = true ∧
    (ctxGet (gatherGeneratedFacts e c) "EUROPE_FACT").isSome = true ∧
    (ctxGet (gatherGeneratedFacts e c) "IRELAND_FACT").isSome = true ∧
    (ctxGet (gatherGeneratedFacts e c) "JERUSALEM_FACT").isSome = true ∧
    (ctxGet (gatherGeneratedFacts e c) "INDIA_FACT").isSome = true ∧
    (ctxGet (gatherGeneratedFacts e c) "MEXICO_FACT").isSome = true ∧
    (ctxGet (gatherGeneratedFacts e c) "STUNT_RIGGING_SUMMARY").isSome = true ∧
    (ctxGet (gatherGeneratedFacts e c) "BIKE_FUN_FACT").isSome = true ∧
    (ctxGet (gatherGeneratedFacts e c) "NASA_LAUNCH_HISTORY").isSome = true ∧
    (ctxGet (gatherGeneratedFacts e c) "TEACH_ME_GC").isSome = true ∧
    (ctxGet (gatherGeneratedFacts e c) "CURRENT_GOLF_STATE_SUMMARY").isSome = true ∧
    (ctxGet (gatherGeneratedFacts e c) "CODEBASE_TODAY").isSome = true ∧
    (ctxGet (gatherGeneratedFacts e c) "CODEBASE_SUMMARY").isSome = true := by
  rcases e with ⟨f1, f2, f3, f4, f5, f6, f7, f8, f9, f10, f11, f12, cb⟩
  rcases cb with _ | ⟨nm, sm⟩ <;>
    simp [gatherGeneratedFacts, ctxGet_ctxSet]

theorem facts_ww1_raise (e : FactsEnv) (c : Ctx) (h : e.ww1 = .raise) :
    ctxGet (gatherGeneratedFacts e c) "WW1_FACT" = some sentinel := by
  rcases e with ⟨f1, f2, f3, f4, f5, f6, f7, f8, f9, f10, f11, f12, cb⟩
  subst h
  rcases cb with _ | ⟨nm, sm⟩ <;>
    simp [gatherGeneratedFacts, ctxGet_ctxSet, factValue]

theorem facts_codebase_raise (e : FactsEnv) (c : Ctx) (h : e.codebase = .raise) :
    ctxGet (gatherGeneratedFacts e c) "CODEBASE_TODAY" =
      some "(Codebase not available)" ∧
    ctxGet (gatherGeneratedFacts e c) "CODEBASE_SUMMARY" =
      some "(Summary not available)" := by
  rcases e with ⟨f1, f2, f3, f4, f5, f6, f7, f8, f9, f10, f11, f12, cb⟩
  subst h
  simp [gatherGeneratedFacts, ctxGet_ctxSet]

def oscarKeys : List String :=
  ["CURRENT_YEAR_BEST_PICTURE", "CURRENT_YEAR_BEST_ACTOR_IN_PICTURE",
   "CURRENT_YEAR_BEST_CINEMATOGRAPHY", "CURRENT_YEAR_BEST_SCORE",
   "CURRENT_YEAR_BEST_FOREIGN_FILM", "CURRENT_YEAR_BEST_PICTURE_SUM",
   "CURRENT_YEAR_BEST_ACTOR_IN_PICTURE_SUM",
   "CURRENT_YEAR_BEST_CINEMATOGRAPHY_SUM", "CURRENT_YEAR_BEST_SCORE_SUM",
   "CURRENT_YEAR_BEST_FOREIGN_FILM_SUM"]

def presKeys : List String :=
  ["CURRENT_YEAR_US_PRESIDENT_VPS", "NEW_MAJOR_PRESIDENTIAL_DECISION"]

def invKeys : List String :=
  ["MAJOR_INVENTION_OF_YEAR", "MAJOR_INVENTION_SUMMARY"]

def yearKeys : List String := oscarKeys ++ presKeys ++ invKeys

/-- Whether the Oscars section of `_gather_year_based_data` raises. -/
def oscarsRaised (e : YearEnv) : Bool :=
  match e.oscars with
  | .raise => true
  | .ok none => false
  | .ok (some _) =>
    match e.sumPicture, e.sumActor, e.sumCinematography,
        e.sumScore, e.sumForeignFilm with
    | .ok _, .ok _, .ok _, .ok _, .ok _ => false
    | _, _, _, _, _ => true

/-- Whether the Presidents section raises. -/
def presidentsRaised (e : YearEnv) : Bool :=
  match e.presidents with
  | .raise => true
  | .ok _ => false

/-- Whether the Inventions section raises. -/
def inventionsRaised (e : YearEnv) : Bool :=
  match e.inventions with
  | .raise => true
  | .ok _ => false

/-- Whether the except-handler of `_gather_year_based_data` ran. -/
def yearRaised (e : YearEnv) : Bool :=
  oscarsRaised e || presidentsRaised e || inventionsRaised e

theorem yearOscars_preserve (year : Int) (e : YearEnv) (c : Ctx) (k : String)
    (hk : k ∉ oscarKeys) :
    ctxGet (yearOscars year e c).1 k = ctxGet c k := by
  simp only [oscarKeys, List.mem_cons, List.not_mem_nil, or_false, not_or] at hk
  obtain ⟨n1, n2, n3, n4, n5, n6, n7, n8, n9, n10⟩ := hk
  rcases e with ⟨osc, s1, s2, s3, s4, s5, pres, inv⟩
  rcases osc with _ | (_ | row) <;>
    rcases s1 with _ | v1 <;>
      rcases s2 with _ | v2 <;>
        rcases s3 with _ | v3 <;>
          rcases s4 with _ | v4 <;>
            rcases s5 with _ | v5 <;>
              simp [yearOscars, ctxGet_ctxSet,
                Ne.symm n1, Ne.symm n2, Ne.symm n3, Ne.symm n4, Ne.symm n5,
                Ne.symm n6, Ne.symm n7, Ne.symm n8, Ne.symm n9, Ne.symm n10]

theorem yearOscars_covers (year : Int) (e : YearEnv) (c : Ctx)
    (h : (yearOscars year e c).2 = false) :
    (ctxGet (yearOscars year e c).1 "CURRENT_YEAR_BEST_PICTURE").isSome = true ∧
    (ctxGet (yearOscars year e c).1 "CURRENT_YEAR_BEST_ACTOR_IN_PICTURE").isSome = true ∧
    (ctxGet (yearOscars year e c).1 "CURRENT_YEAR_BEST_CINEMATOGRAPHY").isSome = true ∧
    (ctxGet (yearOscars year e c).1 "CURRENT_YEAR_BEST_SCORE").isSome = true ∧
    (ctxGet (yearOscars year e c).1 "CURRENT_YEAR_BEST_FOREIGN_FILM").isSome = true ∧
    (ctxGet (yearOscars year e c).1 "CURRENT_YEAR_BEST_PICTURE_SUM").isSome = true ∧
    (ctxGet (yearOscars year e c).1 "CURRENT_YEAR_BEST_ACTOR_IN_PICTURE_SUM").isSome = true ∧
    (ctxGet (yearOscars year e c).1 "CURRENT_YEAR_BEST_CINEMATOGRAPHY_SUM").isSome = true ∧
    (ctxGet (yearOscars year e c).1 "CURRENT_YEAR_BEST_SCORE_SUM").isSome = true ∧
    (ctxGet (yearOscars year e c).1 "CURRENT_YEAR_BEST_FOREIGN_FILM_SUM").isSome = true := by
  rcases e with ⟨osc, s1, s2, s3, s4, s5, pres, inv⟩
  rcases osc with _ | (_ | row) <;>
    rcases s1 with _ | v1 <;>
      rcases s2 with _ | v2 <;>
        rcases s3 with _ | v3 <;>
          rcases s4 with _ | v4 <;>
            rcases s5 with _ | v5 <;>
              simp_all [yearOscars, ctxGet_ctxSet]

theorem yearOscars_flag (year : Int) (e : YearEnv) (c : Ctx) :
    (yearOscars year e c).2 = oscarsRaised e := by
  rcases e with ⟨osc, s1, s2, s3, s4, s5, pres, inv⟩
  rcases osc with _ | (_ | row) <;>
    rcases s1 with _ | v1 <;>
      rcases s2 with _ | v2 <;>
        rcases s3 with _ | v3 <;>
          rcases s4 with _ | v4 <;>
            rcases s5 with _ | v5 <;>
              rfl

theorem yearPresidents_preserve (year : Int) (e : YearEnv) (c : Ctx) (k : String)
    (hk : k ∉ presKeys) :
    ctxGet (yearPresidents year e c).1 k = ctxGet c k := by
  simp only [presKeys, List.mem_cons, List.not_mem_nil, or_false, not_or] at hk
  obtain ⟨n1, n2⟩ := hk
  rcases hp : e.presidents with _ | (_ | ⟨pres, vp, decision⟩) <;>
    simp [yearPresidents, hp, ctxGet_ctxSet, Ne.symm n1, Ne.symm n2]

theorem yearPresidents_covers (year : Int) (e : YearEnv) (c : Ctx)
    (h : (yearPresidents year e c).2 = false) :
    (ctxGet (yearPresidents year e c).1 "CURRENT_YEAR_US_PRESIDENT_VPS").isSome = true ∧
    (ctxGet (yearPresidents year e c).1 "NEW_MAJOR_PRESIDENTIAL_DECISION").isSome = true := by
  rcases hp : e.presidents with _ | (_ | ⟨pres, vp, decision⟩) <;>
    simp_all [yearPresidents, hp, ctxGet_ctxSet]

theorem yearPresidents_flag (year : Int) (e : YearEnv) (c : Ctx) :
    (yearPresidents year e c).2 = presidentsRaised e := by
  rcases hp : e.presidents with _ | (_ | ⟨pres, vp, decision⟩) <;>
    simp [yearPresidents, presidentsRaised, hp]

theorem yearInventions_preserve (year : Int) (e : YearEnv) (c : Ctx) (k : String)
    (hk : k ∉ invKeys) :
    ctxGet (yearInventions year e c).1 k = ctxGet c k := by
  simp only [invKeys, List.mem_cons, List.not_mem_nil, or_false, not_or] at hk
  obtain ⟨n1, n2⟩ := hk
  rcases hi : e.inventions with _ | (_ | ⟨inv, summ⟩) <;>
    simp [yearInventions, hi, ctxGet_ctxSet, Ne.symm n1, Ne.symm n2]

theorem yearInventions_covers (year : Int) (e : YearEnv) (c : Ctx)
    (h : (yearInventions year e c).2 = false) :
    (ctxGet (yearInventions year e c).1 "MAJOR_INVENTION_OF_YEAR").isSome = true ∧
    (ctxGet (yearInventions year e c).1 "MAJOR_INVENTION_SUMMARY").isSome = true := by
  rcases hi : e.inventions with _ | (_ | ⟨inv, summ⟩) <;>
    simp_all [yearInventions, hi, ctxGet_ctxSet]

theorem yearInventions_flag (year : Int) (e : YearEnv) (c : Ctx) :
    (yearInventions year e c).2 = inventionsRaised e := by
  rcases hi : e.inventions with _ | (_ | ⟨inv, summ⟩) <;>
    simp [yearInventions, inventionsRaised, hi]

theorem yearBody_preserve (year : Int) (e : YearEnv) (c : Ctx) (k : String)
    (hk : k ∉ yearKeys) :
    ctxGet (yearBody year e c).1 k = ctxGet c k := by
  have hks : k ∉ oscarKeys ∧ k ∉ presKeys ∧ k ∉ invKeys := by
    simpa [yearKeys, List.mem_append, not_or] using hk
  obtain ⟨hkO, hkP, hkI⟩ := hks
  unfold yearBody
  rcases hO : yearOscars year e c with ⟨cO, rO⟩
  have pO : ctxGet cO k = ctxGet c k := by
    have h := yearOscars_preserve year e c k hkO
    rw [hO] at h
    exact h
  cases rO with
  | true => simpa [andThen] using pO
  | false =>
    simp only [andThen]
    rcases hP : yearPresidents year e cO with ⟨cP, rP⟩
    have pP : ctxGet cP k = ctxGet cO k := by
      have h := yearPresidents_preserve year e cO k hkP
      rw [hP] at h
      exact h
    cases rP with
    | true => simpa [andThen] using pP.trans pO
    | false =>
      simp only [andThen]
      have pI : ctxGet (yearInventions year e cP).1 k = ctxGet cP k :=
        yearInventions_preserve year e cP k hkI
      exact pI.trans (pP.trans pO)

theorem yearBody_flag (year : Int) (e : YearEnv) (c : Ctx) :
    (yearBody year e c).2 = yearRaised e := by
  unfold yearBody yearRaised
  rcases hO : yearOscars year e c with ⟨cO, rO⟩
  have fO : rO = oscarsRaised e := by
    have h := yearOscars_flag year e c
    rw [hO] at h
    exact h
  cases rO with
  | true => simp [andThen, ← fO]
  | false =>
    simp only [andThen, ← fO]
    rcases hP : yearPresidents year e cO with ⟨cP, rP⟩
    have fP : rP = presidentsRaised e := by
      have h := yearPresidents_flag year e cO
      rw [hP] at h
      exact h
    cases rP with
    | true => simp [andThen, ← fP]
    | false =>
      simp only [andThen, ← fP]
      have fI := yearInventions_flag year e cP
      simp [fI]

theorem year_preserve (year : Int) (e : YearEnv) (c : Ctx) (k : String)
    (hk : k ∉ yearKeys) :
    ctxGet (gatherYearBasedData year e c) k = ctxGet c k := by
  have hk14 : ¬ "CURRENT_YEAR_BEST_PICTURE" = k ∧
      ¬ "CURRENT_YEAR_BEST_ACTOR_IN_PICTURE" = k ∧
      ¬ "CURRENT_YEAR_BEST_CINEMATOGRAPHY" = k ∧
      ¬ "CURRENT_YEAR_BEST_SCORE" = k ∧
      ¬ "CURRENT_YEAR_BEST_FOREIGN_FILM" = k ∧
      ¬ "CURRENT_YEAR_BEST_PICTURE_SUM" = k ∧
      ¬ "CURRENT_YEAR_BEST_ACTOR_IN_PICTURE_SUM" = k ∧
      ¬ "CURRENT_YEAR_BEST_CINEMATOGRAPHY_SUM" = k ∧
      ¬ "CURRENT_YEAR_BEST_SCORE_SUM" = k ∧
      ¬ "CURRENT_YEAR_BEST_FOREIGN_FILM_SUM" = k ∧
      ¬ "CURRENT_YEAR_US_PRESIDENT_VPS" = k ∧
      ¬ "NEW_MAJOR_PRESIDENTIAL_DECISION" = k ∧
      ¬ "MAJOR_INVENTION_OF_YEAR" = k ∧
      ¬ "MAJOR_INVENTION_SUMMARY" = k := by
    simp only [yearKeys, oscarKeys, presKeys, invKeys, List.mem_append,
      List.mem_cons, List.not_mem_nil, or_false, not_or] at hk
    tauto
  obtain ⟨m1, m2, m3, m4, m5, m6, m7, m8, m9, m10, m11, m12, m13, m14⟩ := hk14
  have pB : ctxGet (yearBody year e c).1 k = ctxGet c k :=
    yearBody_preserve year e c k hk
  unfold gatherYearBasedData
  rcases hB : yearBody year e c with ⟨c1, r⟩
  rw [hB] at pB
  cases r with
  | false => exact pB
  | true =>
    simp [ctxGet_ctxSet, m1, m2, m3, m4, m5, m6, m7, m8, m9, m10, m11,
      m12, m13, m14, pB]

theorem year_covers (year : Int) (e : YearEnv) (c : Ctx) :
    (ctxGet (gatherYearBasedData year e c) "CURRENT_YEAR_BEST_PICTURE").isSome = true ∧
    (ctxGet (gatherYearBasedData year e c) "CURRENT_YEAR_BEST_ACTOR_IN_PICTURE").isSome = true ∧
    (ctxGet (gatherYearBasedData year e c) "CURRENT_YEAR_BEST_CINEMATOGRAPHY").isSome = true ∧
    (ctxGet (gatherYearBasedData year e c) "CURRENT_YEAR_BEST_SCORE").isSome = true ∧
    (ctxGet (gatherYearBasedData year e c) "CURRENT_YEAR_BEST_FOREIGN_FILM").isSome = true ∧
    (ctxGet (gatherYearBasedData year e c) "CURRENT_YEAR_BEST_PICTURE_SUM").isSome = true ∧
    (ctxGet (gatherYearBasedData year e c) "CURRENT_YEAR_BEST_ACTOR_IN_PICTURE_SUM").isSome = true ∧
    (ctxGet (gatherYearBasedData year e c) "CURRENT_YEAR_BEST_CINEMATOGRAPHY_SUM").isSome = true ∧
    (ctxGet (gatherYearBasedData year e c) "CURRENT_YEAR_BEST_SCORE_SUM").isSome = true ∧
    (ctxGet (gatherYearBasedData year e c) "CURRENT_YEAR_BEST_FOREIGN_FILM_SUM").isSome = true ∧
    (ctxGet (gatherYearBasedData year e c) "CURRENT_YEAR_US_PRESIDENT_VPS").isSome = true ∧
    (ctxGet (gatherYearBasedData year e c) "NEW_MAJOR_PRESIDENTIAL_DECISION").isSome = true ∧
    (ctxGet (gatherYearBasedData year e c) "MAJOR_INVENTION_OF_YEAR").isSome = true ∧
    (ctxGet (gatherYearBasedData year e c) "MAJOR_INVENTION_SUMMARY").isSome = true := by
  unfold gatherYearBasedData
  rcases hB : yearBody year e c with ⟨c1, r⟩
  cases r with
  | true => simp [ctxGet_ctxSet]
  | false =>
    have hB' := hB
    unfold yearBody at hB'
    rcases hO : yearOscars year e c with ⟨cO, rO⟩
    rw [hO] at hB'
    cases rO with
    | true => simp [andThen] at hB'
    | false =>
      simp only [andThen] at hB'
      rcases hP : yearPresidents year e cO with ⟨cP, rP⟩
      rw [hP] at hB'
      cases rP with
      | true => simp [andThen] at hB'
      | false =>
        simp only [andThen] at hB'
        have hc1 : c1 = (yearInventions year e cP).1 := by rw [hB']
        have hOc : (yearOscars year e c).2 = false := by rw [hO]
        have hPc : (yearPresidents year e cO).2 = false := by rw [hP]
        have hIc : (yearInventions year e cP).2 = false := by rw [hB']
        have oc := yearOscars_covers year e c hOc
        rw [hO] at oc
        have pc := yearPresidents_covers year e cO hPc
        rw [hP] at pc
        have ic := yearInventions_covers year e cP hIc
        rw [hB'] at ic
        have e1 : (yearInventions year e cP).1 = c1 := by rw [hB']
        have e2 : (yearPresidents year e cO).1 = cP := by rw [hP]
        have stepP : ∀ k : String, k ∉ invKeys →
            ctxGet c1 k = ctxGet cP k := by
          intro k hkI
          have h1 : ctxGet (yearInventions year e cP).1 k = ctxGet cP k :=
            yearInventions_preserve year e cP k hkI
          rw [e1] at h1
          exact h1
        have stepO : ∀ k : String, k ∉ presKeys → k ∉ invKeys →
            ctxGet c1 k = ctxGet cO k := by
          intro k hkP hkI
          have h2 : ctxGet (yearPresidents year e cO).1 k = ctxGet cO k :=
            yearPresidents_preserve year e cO k hkP
          rw [e2] at h2
          exact (stepP k hkI).trans h2
        refine ⟨?_, ?_, ?_, ?_, ?_, ?_, ?_, ?_, ?_, ?_, ?_, ?_, ?_, ?_⟩
        · rw [stepO _ (by decide) (by decide)]; exact oc.1
        · rw [stepO _ (by decide) (by decide)]; exact oc.2.1
        · rw [stepO _ (by decide) (by decide)]; exact oc.2.2.1
        · rw [stepO _ (by decide) (by decide)]; exact oc.2.2.2.1
        · rw [stepO _ (by decide) (by decide)]; exact oc.2.2.2.2.1
        · rw [stepO _ (by decide) (by decide)]; exact oc.2.2.2.2.2.1
        · rw [stepO _ (by decide) (by decide)]; exact oc.2.2.2.2.2.2.1
        · rw [stepO _ (by decide) (by decide)]; exact oc.2.2.2.2.2.2.2.1
        · rw [stepO _ (by decide) (by decide)]; exact oc.2.2.2.2.2.2.2.2.1
        · rw [stepO _ (by decide) (by decide)]; exact oc.2.2.2.2.2.2.2.2.2
        · rw [stepP _ (by decide)]; exact pc.1
        · rw [stepP _ (by decide)]; exact pc.2
        · exact ic.1
        · exact ic.2

theorem year_sentinel (year : Int) (e : YearEnv) (c : Ctx)
    (h : yearRaised e = true) :
    ctxGet (gatherYearBasedData year e c) "CURRENT_YEAR_BEST_PICTURE" = some sentinel ∧
    ctxGet (gatherYearBasedData year e c) "CURRENT_YEAR_BEST_ACTOR_IN_PICTURE" = some sentinel ∧
    ctxGet (gatherYearBasedData year e c) "CURRENT_YEAR_BEST_CINEMATOGRAPHY" = some sentinel ∧
    ctxGet (gatherYearBasedData year e c) "CURRENT_YEAR_BEST_SCORE" = some sentinel ∧
    ctxGet (gatherYearBasedData year e c) "CURRENT_YEAR_BEST_FOREIGN_FILM" = some sentinel ∧
    ctxGet (gatherYearBasedData year e c) "CURRENT_YEAR_BEST_PICTURE_SUM" = some sentinel ∧
    ctxGet (gatherYearBasedData year e c) "CURRENT_YEAR_BEST_ACTOR_IN_PICTURE_SUM" = some sentinel ∧
    ctxGet (gatherYearBasedData year e c) "CURRENT_YEAR_BEST_CINEMATOGRAPHY_SUM" = some sentinel ∧
    ctxGet (gatherYearBasedData year e c) "CURRENT_YEAR_BEST_SCORE_SUM" = some sentinel ∧
    ctxGet (gatherYearBasedData year e c) "CURRENT_YEAR_BEST_FOREIGN_FILM_SUM" = some sentinel ∧
    ctxGet (gatherYearBasedData year e c) "CURRENT_YEAR_US_PRESIDENT_VPS" = some sentinel ∧
    ctxGet (gatherYearBasedData year e c) "NEW_MAJOR_PRESIDENTIAL_DECISION" = some sentinel ∧
    ctxGet (gatherYearBasedData year e c) "MAJOR_INVENTION_OF_YEAR" = some sentinel ∧
    ctxGet (gatherYearBasedData year e c) "MAJOR_INVENTION_SUMMARY" = some sentinel := by
  have hflag := yearBody_flag year e c
  unfold gatherYearBasedData
  rcases hB : yearBody year e c with ⟨c1, r⟩
  rw [hB] at hflag
  rw [hflag.symm] at h
  cases r with
  | false => simp at h
  | true => simp [ctxGet_ctxSet]

/-- A concrete run in which the sheets source raises at the connection test
and the language source raises; every other source succeeds. -/
def c1env : GatherEnv :=
  { fulldate := "Monday, March 10, 2025"
    year := 1980
    stateName := "Alabama"
    daysLeft := 3
    hn := ⟨.ok (some ("Show HN", ["ai"])), .ok "sum", .ok "points"⟩
    gh := ⟨.ok (some "org/mcp-repo"), .ok "mcp sum"⟩
    sheets := ⟨.raise, .ok [], .ok [], 0, .ok [], 0⟩
    country := ⟨.ok (some ("France", "Paris", "Western Europe"))⟩
    yearData := ⟨.ok none, .ok "a", .ok "b", .ok "c", .ok "d", .ok "e",
      .ok none, .ok none⟩
    facts := ⟨.ok "f1", .ok "f2", .ok "f3", .ok "f4", .ok "f5", .ok "f6",
      .ok "f7", .ok "f8", .ok "f9", .ok "f10", .ok "f11", .ok "f12",
      .ok ("repo", "repo sum")⟩
    lang := ⟨.raise⟩ }

/-- C1 counterexample: with the sheets source raising, the returned context
is missing the vocabulary keys `QUIZ_ME_CS_DEFINE` and `QuizMeIngles`
entirely, and a raising language source stores a message different from
the sentinel. -/
theorem c1_counterexample :
    ctxGet (gather_data c1env) "QUIZ_ME_CS_DEFINE" = none ∧
    ctxGet (gather_data c1env) "QuizMeIngles" = none ∧
    "QUIZ_ME_CS_DEFINE" ∈ vocabulary ∧
    "QuizMeIngles" ∈ vocabulary ∧
    ctxGet (gather_data c1env) "DAILY_LANGUAGE_SECTION" =
      some "(Language section unavailable)" ∧
    ¬ "(Language section unavailable)" = sentinel :=
  ⟨rfl, rfl, by decide, by decide, rfl, by decide⟩

/-- C1 (amended): for every combination of per-source call outcomes,
`gather_data` completes without raising and its context contains every
vocabulary key, except that `QUIZ_ME_CS_DEFINE` and `QuizMeIngles` are
absent exactly when the sheets source fails before storing them (the
connection test fails or an early sheets call raises, resp. any sheets
call raises); a raising source's except-handler keys hold the sentinel,
where for the sheets source those are only `TRANSCRIPT_TABLE`,
`QUIZ_ME_CS_TERM` and `QUIZ_ME_ESPANOL`, a raising fact sub-call stores
the sentinel under its own key, and the codebase and language fallbacks
are source-specific messages rather than the sentinel. -/
theorem c1_gather_data_coverage (env : GatherEnv) :
    (∀ k ∈ vocabulary, ¬ k = "QUIZ_ME_CS_DEFINE" → ¬ k = "QuizMeIngles" →
      (ctxGet (gather_data env) k).isSome = true) ∧
    (csDefineAbsent env.sheets = true →
      ctxGet (gather_data env) "QUIZ_ME_CS_DEFINE" = none) ∧
    (csDefineAbsent env.sheets = false →
      (ctxGet (gather_data env) "QUIZ_ME_CS_DEFINE").isSome = true) ∧
    (inglesAbsent env.sheets = true →
      ctxGet (gather_data env) "QuizMeIngles" = none) ∧
    (inglesAbsent env.sheets = false →
      (ctxGet (gather_data env) "QuizMeIngles").isSome = true) ∧
    (hnRaised env.hn = true →
      ∀ k ∈ hnKeys, ctxGet (gather_data env) k = some sentinel) ∧
    (ghRaised env.gh = true →
      ∀ k ∈ ghKeys, ctxGet (gather_data env) k = some sentinel) ∧
    (sheetsRaised env.sheets = true →
      ctxGet (gather_data env) "TRANSCRIPT_TABLE" = some sentinel ∧
      ctxGet (gather_data env) "QUIZ_ME_CS_TERM" = some sentinel ∧
      ctxGet (gather_data env) "QUIZ_ME_ESPANOL" = some sentinel) ∧
    (countryRaised env.country = true →
      ∀ k ∈ countryKeys, ctxGet (gather_data env) k = some sentinel) ∧
    (yearRaised env.yearData = true →
      ∀ k ∈ yearKeys, ctxGet (gather_data env) k = some sentinel) ∧
    (env.facts.ww1 = .raise →
      ctxGet (gather_data env) "WW1_FACT" = some sentinel) ∧
    (env.facts.codebase = .raise →
      ctxGet (gather_data env) "CODEBASE_TODAY" = some "(Codebase not available)") ∧
    (env.lang.daily = .raise →
      ctxGet (gather_data env) "DAILY_LANGUAGE_SECTION" =
        some "(Language section unavailable)") := by
  refine ⟨?_, ?_, ?_, ?_, ?_, ?_, ?_, ?_, ?_, ?_, ?_, ?_, ?_⟩
  · intro k hk h1 h2
    simp only [vocabulary] at hk
    simp only [gather_data]
    fin_cases hk <;>
      first
      | exact absurd rfl h1
      | exact absurd rfl h2
      | (try rw [lang_preserve _ _ _ (by decide)]
         try rw [facts_preserve _ _ _ (by decide)]
         try rw [year_preserve _ _ _ _ (by decide)]
         try rw [country_preserve _ _ _ (by decide)]
         try rw [sheets_preserve _ _ _ (by decide)]
         try rw [gh_preserve _ _ _ (by decide)]
         try rw [hn_preserve _ _ _ (by decide)]
         first
         | exact (hn_covers _ _).1
         | exact (hn_covers _ _).2.1
         | exact (hn_covers _ _).2.2.1
         | exact (hn_covers _ _).2.2.2
         | exact (gh_covers _ _).1
         | exact (gh_covers _ _).2
         | exact (sheets_covers _ _).1
         | exact (sheets_covers _ _).2.1
         | exact (sheets_covers _ _).2.2
         | exact (country_covers _ _).1
         | exact (country_covers _ _).2.1
         | exact (country_covers _ _).2.2
         | exact (year_covers _ _ _).1
         | exact (year_covers _ _ _).2.1
         | exact (year_covers _ _ _).2.2.1
         | exact (year_covers _ _ _).2.2.2.1
         | exact (year_covers _ _ _).2.2.2.2.1
         | exact (year_covers _ _ _).2.2.2.2.2.1
         | exact (year_covers _ _ _).2.2.2.2.2.2.1
         | exact (year_covers _ _ _).2.2.2.2.2.2.2.1
         | exact (year_covers _ _ _).2.2.2.2.2.2.2.2.1
         | exact (year_covers _ _ _).2.2.2.2.2.2.2.2.2.1
         | exact (year_covers _ _ _).2.2.2.2.2.2.2.2.2.2.1
         | exact (year_covers _ _ _).2.2.2.2.2.2.2.2.2.2.2.1
         | exact (year_covers _ _ _).2.2.2.2.2.2.2.2.2.2.2.2.1
         | exact (year_covers _ _ _).2.2.2.2.2.2.2.2.2.2.2.2.2
         | exact (facts_covers _ _).1
         | exact (facts_covers _ _).2.1
         | exact (facts_covers _ _).2.2.1
         | exact (facts_covers _ _).2.2.2.1
         | exact (facts_covers _ _).2.2.2.2.1
         | exact (facts_covers _ _).2.2.2.2.2.1
         | exact (facts_covers _ _).2.2.2.2.2.2.1
         | exact (facts_covers _ _).2.2.2.2.2.2.2.1
         | exact (facts_covers _ _).2.2.2.2.2.2.2.2.1
         | exact (facts_covers _ _).2.2.2.2.2.2.2.2.2.1
         | exact (facts_covers _ _).2.2.2.2.2.2.2.2.2.2.1
         | exact (facts_covers _ _).2.2.2.2.2.2.2.2.2.2.2.1
         | exact (facts_covers _ _).2.2.2.2.2.2.2.2.2.2.2.2.1
         | exact (facts_covers _ _).2.2.2.2.2.2.2.2.2.2.2.2.2
         | exact lang_covers _ _
         | simp [ctxGet_ctxSet])
  · intro h
    simp only [gather_data]
    rw [lang_preserve _ _ _ (by decide), facts_preserve _ _ _ (by decide),
      year_preserve _ _ _ _ (by decide), country_preserve _ _ _ (by decide),
      sheets_csdefine_absent _ _ h, gh_preserve _ _ _ (by decide),
      hn_preserve _ _ _ (by decide)]
    simp [ctxGet_ctxSet, ctxGet]
  · intro h
    simp only [gather_data]
    rw [lang_preserve _ _ _ (by decide), facts_preserve _ _ _ (by decide),
      year_preserve _ _ _ _ (by decide), country_preserve _ _ _ (by decide)]
    exact sheets_csdefine_present _ _ h
  · intro h
    simp only [gather_data]
    rw [lang_preserve _ _ _ (by decide), facts_preserve _ _ _ (by decide),
      year_preserve _ _ _ _ (by decide), country_preserve _ _ _ (by decide),
      sheets_ingles_absent _ _ h, gh_preserve _ _ _ (by decide),
      hn_preserve _ _ _ (by decide)]
    simp [ctxGet_ctxSet, ctxGet]
  · intro h
    simp only [gather_data]
    rw [lang_preserve _ _ _ (by decide), facts_preserve _ _ _ (by decide),
      year_preserve _ _ _ _ (by decide), country_preserve _ _ _ (by decide)]
    exact sheets_ingles_present _ _ h
  · intro h k hk
    simp only [hnKeys] at hk
    simp only [gather_data]
    fin_cases hk <;>
      (rw [lang_preserve _ _ _ (by decide), facts_preserve _ _ _ (by decide),
         year_preserve _ _ _ _ (by decide), country_preserve _ _ _ (by decide),
         sheets_preserve _ _ _ (by decide), gh_preserve _ _ _ (by decide)]
       first
       | exact (hn_sentinel _ _ h).1
       | exact (hn_sentinel _ _ h).2.1
       | exact (hn_sentinel _ _ h).2.2.1
       | exact (hn_sentinel _ _ h).2.2.2)
  · intro h k hk
    simp only [ghKeys] at hk
    simp only [gather_data]
    fin_cases hk <;>
      (rw [lang_preserve _ _ _ (by decide), facts_preserve _ _ _ (by decide),
         year_preserve _ _ _ _ (by decide), country_preserve _ _ _ (by decide),
         sheets_preserve _ _ _ (by decide)]
       first
       | exact (gh_sentinel _ _ h).1
       | exact (gh_sentinel _ _ h).2)
  · intro h
    simp only [gather_data]
    refine ⟨?_, ?_, ?_⟩ <;>
      rw [lang_preserve _ _ _ (by decide), facts_preserve _ _ _ (by decide),
        year_preserve _ _ _ _ (by decide), country_preserve _ _ _ (by decide)]
    · exact (sheets_sentinel _ _ h).1
    · exact (sheets_sentinel _ _ h).2.1
    · exact (sheets_sentinel _ _ h).2.2
  · intro h k hk
    simp only [countryKeys] at hk
    simp only [gather_data]
    fin_cases hk <;>
      (rw [lang_preserve _ _ _ (by decide), facts_preserve _ _ _ (by decide),
         year_preserve _ _ _ _ (by decide)]
       first
       | exact (country_sentinel _ _ h).1
       | exact (country_sentinel _ _ h).2.1
       | exact (country_sentinel _ _ h).2.2)
  · intro h k hk
    simp only [yearKeys, oscarKeys, presKeys, invKeys, List.append_assoc,
      List.cons_append, List.nil_append] at hk
    simp only [gather_data]
    fin_cases hk <;>
      (rw [lang_preserve _ _ _ (by decide), facts_preserve _ _ _ (by decide)]
       first
       | exact (year_sentinel _ _ _ h).1
       | exact (year_sentinel _ _ _ h).2.1
       | exact (year_sentinel _ _ _ h).2.2.1
       | exact (year_sentinel _ _ _ h).2.2.2.1
       | exact (year_sentinel _ _ _ h).2.2.2.2.1
       | exact (year_sentinel _ _ _ h).2.2.2.2.2.1
       | exact (year_sentinel _ _ _ h).2.2.2.2.2.2.1
       | exact (year_sentinel _ _ _ h).2.2.2.2.2.2.2.1
       | exact (year_sentinel _ _ _ h).2.2.2.2.2.2.2.2.1
       | exact (year_sentinel _ _ _ h).2.2.2.2.2.2.2.2.2.1
       | exact (year_sentinel _ _ _ h).2.2.2.2.2.2.2.2.2.2.1
       | exact (year_sentinel _ _ _ h).2.2.2.2.2.2.2.2.2.2.2.1
       | exact (year_sentinel _ _ _ h).2.2.2.2.2.2.2.2.2.2.2.2.1
       | exact (year_sentinel _ _ _ h).2.2.2.2.2.2.2.2.2.2.2.2.2)
  · intro h
    simp only [gather_data]
    rw [lang_preserve _ _ _ (by decide)]
    exact facts_ww1_raise _ _ h
  · intro h
    simp only [gather_data]
    rw [lang_preserve _ _ _ (by decide)]
    exact (facts_codebase_raise _ _ h).1
  · intro h
    simp only [gather_data]
    exact lang_raise_message _ _ h

/-- Witness for C1 at the concrete run `c1env`. -/
theorem c1_witness :
    (ctxGet (gather_data c1env) "WW1_FACT").isSome = true ∧
    ctxGet (gather_data c1env) "QUIZ_ME_CS_DEFINE" = none ∧
    ctxGet (gather_data c1env) "TRANSCRIPT_TABLE" = some sentinel :=
  ⟨(c1_gather_data_coverage c1env).1 "WW1_FACT" (by decide) (by decide) (by decide),
   (c1_gather_data_coverage c1env).2.1 rfl,
   ((c1_gather_data_coverage c1env).2.2.2.2.2.2.2.1 rfl).1⟩

/-! Lemmas about `get_missing_fields`. -/

theorem missing_mem_iff (ctx : Ctx) (k : String) :
    k ∈ get_missing_fields ctx ↔
      ∃ v, (k, v) ∈ ctx ∧ (v = "" ∨ v = sentinel) := by
  induction ctx with
  | nil => simp [get_missing_fields]
  | cons hd tl ih =>
    obtain ⟨k0, v0⟩ := hd
    by_cases hv : v0 = "" ∨ v0 = sentinel
    · simp only [get_missing_fields, if_pos hv]
      constructor
      · intro hm
        rcases List.mem_cons.mp hm with rfl | hm1
        · exact ⟨v0, List.mem_cons_self _ _, hv⟩
        · obtain ⟨v, hvm, hvp⟩ := ih.mp hm1
          exact ⟨v, List.mem_cons_of_mem _ hvm, hvp⟩
      · rintro ⟨v, hvm, hvp⟩
        rcases List.mem_cons.mp hvm with heq | hm1
        · cases heq
          exact List.mem_cons_self _ _
        · exact List.mem_cons_of_mem _ (ih.mpr ⟨v, hm1, hvp⟩)
    · simp only [get_missing_fields, if_neg hv]
      rw [ih]
      constructor
      · rintro ⟨v, hvm, hvp⟩
        exact ⟨v, List.mem_cons_of_mem _ hvm, hvp⟩
      · rintro ⟨v, hvm, hvp⟩
        rcases List.mem_cons.mp hvm with heq | hm1
        · cases heq
          exact absurd hvp hv
        · exact ⟨v, hm1, hvp⟩

theorem ctxGet_isSome_of_mem (ctx : Ctx) (k v : String) (h : (k, v) ∈ ctx) :
    (ctxGet ctx k).isSome = true := by
  induction ctx with
  | nil => simp at h
  | cons hd tl ih =>
    obtain ⟨k0, v0⟩ := hd
    by_cases h0 : k0 = k
    · simp [ctxGet, h0]
    · rcases List.mem_cons.mp h with heq | hm
      · cases heq
        exact absurd rfl h0
      · simpa [ctxGet, h0] using ih hm

def c7bad : Ctx := [("FULLDATE", "Monday, March 10, 2025")]

/-- C7 counterexample: `get_missing_fields` iterates only over the context
entries, so the vocabulary key `WW1_FACT`, absent from this context, is not
reported as missing. -/
theorem c7_counterexample :
    "WW1_FACT" ∈ vocabulary ∧
    ctxGet c7bad "WW1_FACT" = none ∧
    ¬ "WW1_FACT" ∈ get_missing_fields c7bad := by decide

/-- C7 (amended): `get_missing_fields` returns exactly the keys of the
context entries whose value is the empty string or the sentinel — with no
duplicates whenever the context keys are distinct — but it ranges only over
the keys present in the context, so an enumerated-vocabulary key absent
from the context is never reported. -/
theorem c7_get_missing_fields (ctx : Ctx) :
    (∀ k : String, k ∈ get_missing_fields ctx ↔
      ∃ v, (k, v) ∈ ctx ∧ (v = "" ∨ v = sentinel)) ∧
    ((ctx.map Prod.fst).Nodup → (get_missing_fields ctx).Nodup) ∧
    (∀ k : String, ctxGet ctx k = none → ¬ k ∈ get_missing_fields ctx) := by
  refine ⟨missing_mem_iff ctx, ?_, ?_⟩
  · intro hnd
    induction ctx with
    | nil => simp [get_missing_fields]
    | cons hd tl ih =>
      obtain ⟨k0, v0⟩ := hd
      rw [List.map_cons, List.nodup_cons] at hnd
      by_cases hv : v0 = "" ∨ v0 = sentinel
      · simp only [get_missing_fields, if_pos hv]
        rw [List.nodup_cons]
        refine ⟨?_, ih hnd.2⟩
        intro hmem
        obtain ⟨v, hvm, hvp⟩ := (missing_mem_iff tl k0).mp hmem
        exact hnd.1 (List.mem_map.mpr ⟨(k0, v), hvm, rfl⟩)
      · simp only [get_missing_fields, if_neg hv]
        exact ih hnd.2
  · intro k hnone hmem
    obtain ⟨v, hvm, hvp⟩ := (missing_mem_iff ctx k).mp hmem
    have := ctxGet_isSome_of_mem ctx k v hvm
    rw [hnone] at this
    simp at this

def c7good : Ctx := [("A", ""), ("B", "real text"), ("C", "(data unavailable)")]

/-- Witness for C7 on a concrete mixed context. -/
theorem c7_witness :
    "A" ∈ get_missing_fields c7good ∧
    "C" ∈ get_missing_fields c7good ∧
    (get_missing_fields c7good).Nodup ∧
    ¬ "ABSENT" ∈ get_missing_fields c7good :=
  ⟨((c7_get_missing_fields c7good).1 "A").mpr ⟨"", by decide, Or.inl rfl⟩,
   ((c7_get_missing_fields c7good).1 "C").mpr
     ⟨"(data unavailable)", by decide, Or.inr rfl⟩,
   (c7_get_missing_fields c7good).2.1 (by decide),
   (c7_get_missing_fields c7good).2.2 "ABSENT" rfl⟩

end JarvisBriefMe
